import Mathlib

/-!
# Resource monitor of aos_core_lib_cpp: embedding and verified properties

The development follows `src/common/resourcemonitor/resourcemonitor.cpp` and
`include/aos/common/resourcemonitor.hpp`.  Bounded containers, strings, errors,
timers and threads live in headers that are not part of the sources at hand;
they are modelled from the specification and marked as such.
-/

namespace aos

/-! ## Configuration constants (config.hpp) -/

/-- Service ID len, AOS_CONFIG_TYPES_SERVICE_ID_LEN. -/
def cServiceIDLen : Nat := 40

/-- Subject ID len, AOS_CONFIG_TYPES_SUBJECT_ID_LEN. -/
def cSubjectIDLen : Nat := 40

/-- Instance ID len, AOS_CONFIG_TYPES_INSTANCE_ID_LEN. -/
def cInstanceIDLen : Nat := 40

/-- Max number of instances, AOS_CONFIG_TYPES_MAX_NUM_INSTANCES. -/
def cMaxNumInstances : Nat := 16

/-- Modelled from the spec: the bound on a partition path (the constant
cFilePathLen is declared in types.hpp, whose value is not in config.hpp).
No theorem depends on the value. -/
def cFilePathLen : Nat := 256

/-! ## Errors (tools/error.hpp, modelled) -/

/-- Modelled from the spec: the error kinds of tools/error.hpp that the monitor
and its tests name (eNone is success, eNoMemory the capacity error of a bounded
container, eNotFound the not-found error). -/
inductive ErrorEnum where
  | eNone
  | eFailed
  | eRuntime
  | eNoMemory
  | eOutOfRange
  | eInvalidArgument
  | eNotFound
deriving DecidableEq, Repr, Inhabited

/-- Modelled from the spec: an error value of tools/error.hpp, an error kind
with the optional source position that the tests construct it with. -/
structure Error where
  mErr : ErrorEnum
  mFileName : Option String
  mLineNumber : Nat
deriving DecidableEq, Repr

/-- Conversion of an error kind to an error value, without a position. -/
def Error.ofEnum (e : ErrorEnum) : Error := ⟨e, none, 0⟩

instance : Inhabited Error := ⟨Error.ofEnum ErrorEnum.eNone⟩

/-- Error::IsNone. -/
def Error.IsNone (e : Error) : Bool := e.mErr == ErrorEnum.eNone

/-- Modelled from the spec: RetWithError of tools/error.hpp, a value paired
with an error. -/
structure RetWithError (α : Type) where
  mValue : α
  mError : Error

/-! ## Bounded strings and arrays (tools/string.hpp, tools/array.hpp, modelled) -/

/-- Modelled from the spec: StaticString of tools/string.hpp, a string of at
most cMaxSize characters.  Identifiers handed to the monitor are values of this
type: the behaviour of copying an over-long string is not described anywhere. -/
structure StaticString (cMaxSize : Nat) where
  mData : String
  hSize : mData.length ≤ cMaxSize
deriving DecidableEq

instance (n : Nat) : Inhabited (StaticString n) := ⟨⟨"", Nat.zero_le n⟩⟩

/-- Modelled from the spec: StaticArray of tools/array.hpp, a list with a fixed
maximum capacity. -/
structure StaticArray (α : Type) (cMaxSize : Nat) where
  mItems : List α
  hSize : mItems.length ≤ cMaxSize

namespace StaticArray

variable {α : Type} {n : Nat}

instance [DecidableEq α] : DecidableEq (StaticArray α n) := fun a b =>
  if h : a.mItems = b.mItems then
    isTrue (by cases a; cases b; cases h; rfl)
  else isFalse (fun hab => h (congrArg StaticArray.mItems hab))

/-- The empty array (default construction). -/
def empty : StaticArray α n := ⟨[], Nat.zero_le n⟩

instance : Inhabited (StaticArray α n) := ⟨empty⟩

/-- Array::Size. -/
def Size (a : StaticArray α n) : Nat := a.mItems.length

/-- Array::Clear. -/
def Clear (_a : StaticArray α n) : StaticArray α n := empty

/-- Modelled from the spec: Array::EmplaceBack / Array::PushBack.  Appending
beyond capacity fails with a capacity error and leaves the existing entries as
they are; otherwise the item becomes the last entry. -/
def EmplaceBack (a : StaticArray α n) (item : α) : StaticArray α n × Error :=
  if h : a.mItems.length < n then
    (⟨a.mItems ++ [item], by simp; omega⟩, Error.ofEnum ErrorEnum.eNone)
  else
    (a, Error.ofEnum ErrorEnum.eNoMemory)

/-- Modelled from the spec: Array::Find with a predicate.  Yields the position
of the first entry that satisfies the predicate (the C++ code yields a pointer
to it), or a not-found error. -/
def Find (a : StaticArray α n) (cmp : α → Bool) : RetWithError (Option Nat) :=
  match a.mItems.findIdx? cmp with
  | some i => ⟨some i, Error.ofEnum ErrorEnum.eNone⟩
  | none => ⟨none, Error.ofEnum ErrorEnum.eNotFound⟩

/-- Modelled from the spec: Array::Remove with a predicate.  Removes the
entries that satisfy the predicate, keeping the others in order; removing zero
entries is a not-found error. -/
def Remove (a : StaticArray α n) (cmp : α → Bool) : StaticArray α n × Error :=
  let kept := a.mItems.filter (fun x => !cmp x)
  if kept.length = a.mItems.length then
    (a, Error.ofEnum ErrorEnum.eNotFound)
  else
    (⟨kept, le_trans (List.length_filter_le _ _) a.hSize⟩, Error.ofEnum ErrorEnum.eNone)

/-- Write through a pointer or reference to the entry at position i. -/
def modify (a : StaticArray α n) (i : Nat) (f : α → α) : StaticArray α n :=
  ⟨a.mItems.modify f i, by simpa using a.hSize⟩

end StaticArray

/-! ## Identity of an instance (types.hpp, modelled) -/

/-- Modelled from the spec: InstanceIdent of types.hpp, the identity of an
instance: service id, subject id and numeric instance index. -/
structure InstanceIdent where
  mServiceID : StaticString cServiceIDLen
  mSubjectID : StaticString cSubjectIDLen
  mInstance : Nat
deriving DecidableEq

instance : Inhabited InstanceIdent := ⟨⟨default, default, 0⟩⟩

namespace monitoring

/-! ## Data model (resourcemonitor.hpp) -/

/-- Partition name len. -/
def cPartitionNameLen : Nat := 64

/-- Max number of partition types. -/
def cMaxNumPartitionTypes : Nat := 4

/-- Max number of partitions. -/
def cMaxNumPartitions : Nat := 4

/-- Node ID len. -/
def cNodeIDLen : Nat := 64

/-- Partition types len. -/
def cPartitionTypesLen : Nat := 32

/-- Timeout for polling resource usage (ms). -/
def cTimeoutGather : Nat := 5000

/-- Timeout for sending monitoring data (ms). -/
def cTimeoutSend : Nat := 10000

/-- Partition info. -/
structure PartitionInfo where
  mName : StaticString cPartitionNameLen
  mPath : StaticString cFilePathLen
  mTypes : StaticArray (StaticString cPartitionTypesLen) cMaxNumPartitionTypes
  mTotalSize : Nat
  mUsedSize : Nat
deriving DecidableEq

instance : Inhabited PartitionInfo := ⟨⟨default, default, default, 0, 0⟩⟩

/-- System info. -/
structure NodeInfo where
  mNumCPUs : Nat
  mTotalRAM : Nat
  mPartitions : StaticArray PartitionInfo cMaxNumPartitions
deriving DecidableEq

/-- MonitoringData monitoring data. -/
structure MonitoringData where
  mRAM : Nat
  mCPU : Nat
  mDisk : StaticArray PartitionInfo cMaxNumPartitions
deriving DecidableEq

/-- InstanceMonitoringData monitoring data for service. -/
structure InstanceMonitoringData where
  mInstanceID : StaticString cInstanceIDLen
  mInstanceIdent : InstanceIdent
  mMonitoringData : MonitoringData
deriving DecidableEq

/-- NodeMonitoringData node monitoring data. -/
structure NodeMonitoringData where
  mNodeID : StaticString cNodeIDLen
  mMonitoringData : MonitoringData
  mTimestamp : Int
  mServiceInstances : StaticArray InstanceMonitoringData cMaxNumInstances
deriving DecidableEq

/-- InstanceMonitorParams resource monitor parameters. -/
structure InstanceMonitorParams where
  mInstanceIdent : InstanceIdent
  mPartitions : StaticArray PartitionInfo cMaxNumPartitions
deriving DecidableEq

/-- NodeMonitorParams resource monitor parameters. -/
structure NodeMonitorParams where
  mNodeID : StaticString cNodeIDLen
  mPartitions : StaticArray PartitionInfo cMaxNumPartitions
deriving DecidableEq

/-! ## Timers and threads (tools/timer.hpp, tools/thread.hpp, modelled) -/

/-- The two timer callbacks of the monitor: each sets one due flag and
broadcasts the shared condition. -/
inductive TimerCallback where
  | notifyMonitoring
  | notifySendMonitoring
deriving DecidableEq

/-- Modelled from the spec: a repeating timer of tools/timer.hpp; it is either
disarmed or armed with an interval and a callback. -/
structure Timer where
  mArmed : Option (Nat × TimerCallback)
deriving DecidableEq

/-- Modelled from the spec: Timer::Create(interval, callback, oneShot).  The
timer subsystem's verdict is the argument err; the timer is armed when the
verdict is success. -/
def Timer.Create (t : Timer) (interval : Nat) (cb : TimerCallback) (err : Error) : Timer × Error :=
  if err.IsNone then (⟨some (interval, cb)⟩, err) else (t, err)

/-- Modelled from the spec: Timer::Stop disarms the timer; the verdict of the
timer subsystem is the argument err. -/
def Timer.Stop (t : Timer) (err : Error) : Timer × Error :=
  if err.IsNone then (⟨none⟩, err) else (t, err)

/-- The two loop bodies run by the monitor's threads. -/
inductive LoopBody where
  | gatherer
  | sender
deriving DecidableEq

/-- Modelled from the spec: a worker of tools/thread.hpp; it is idle or runs
one loop body. -/
structure Thread where
  mRunning : Option LoopBody
deriving DecidableEq

/-- Modelled from the spec: Thread::Run(body).  The thread subsystem's verdict
is the argument err; the body is started when the verdict is success. -/
def Thread.Run (t : Thread) (body : LoopBody) (err : Error) : Thread × Error :=
  if err.IsNone then (⟨some body⟩, err) else (t, err)

/-! ## The monitor's state -/

/-- Resource monitor: the fields of class ResourceMonitor.  The pointers
mResourceUsageProvider and mMonitorSender are represented by passing the
collaborators to the operations that call them; the mutex and the condition
variable have no data. -/
structure ResourceMonitor where
  mNodeMonitoringData : NodeMonitoringData
  mTimerSenders : Timer
  mTimerGatherers : Timer
  mFinishMonitoring : Bool
  mNotifyMonitoring : Bool
  mNotifySendMonitoring : Bool
  mThreadMonitoring : Thread
  mThreadSendMonitoring : Thread
deriving DecidableEq

/-- Copy loop `for (const auto& disk : partitions) dst.EmplaceBack(disk)`; the
result of each EmplaceBack is discarded, as in the source. -/
def copyPartitions (dst : StaticArray PartitionInfo cMaxNumPartitions)
    (partitions : List PartitionInfo) : StaticArray PartitionInfo cMaxNumPartitions :=
  partitions.foldl (fun acc disk => (acc.EmplaceBack disk).1) dst

namespace ResourceMonitor

/-- ResourceMonitor::StartInstanceMonitoring.  The local MonitoringData of the
absent branch is default-initialised in the source, so its mRAM and mCPU are
indeterminate: they are the arguments uninitRAM and uninitCPU. -/
def StartInstanceMonitoring (m : ResourceMonitor) (uninitRAM uninitCPU : Nat)
    (instanceID : StaticString cInstanceIDLen) (monitoringConfig : InstanceMonitorParams) :
    ResourceMonitor × Error :=
  let findInstance := m.mNodeMonitoringData.mServiceInstances.Find
    (fun inst => inst.mInstanceID == instanceID)
  if !findInstance.mError.IsNone then
    let monitoringData : MonitoringData :=
      { mRAM := uninitRAM, mCPU := uninitCPU,
        mDisk := copyPartitions StaticArray.empty monitoringConfig.mPartitions.mItems }
    let instances := (m.mNodeMonitoringData.mServiceInstances.EmplaceBack
      ⟨instanceID, monitoringConfig.mInstanceIdent, monitoringData⟩).1
    ({ m with mNodeMonitoringData := { m.mNodeMonitoringData with mServiceInstances := instances } },
      Error.ofEnum ErrorEnum.eNone)
  else
    match findInstance.mValue with
    | none => (m, Error.ofEnum ErrorEnum.eNone)
    | some i =>
      let instances := m.mNodeMonitoringData.mServiceInstances.modify i (fun inst =>
        { inst with mMonitoringData := { inst.mMonitoringData with
            mDisk := copyPartitions inst.mMonitoringData.mDisk.Clear
              monitoringConfig.mPartitions.mItems } })
      ({ m with mNodeMonitoringData := { m.mNodeMonitoringData with mServiceInstances := instances } },
        Error.ofEnum ErrorEnum.eNone)

/-- ResourceMonitor::StopInstanceMonitoring. -/
def StopInstanceMonitoring (m : ResourceMonitor) (instanceID : StaticString cInstanceIDLen) :
    ResourceMonitor × Error :=
  let r := m.mNodeMonitoringData.mServiceInstances.Remove
    (fun inst => inst.mInstanceID == instanceID)
  ({ m with mNodeMonitoringData := { m.mNodeMonitoringData with mServiceInstances := r.1 } }, r.2)

/-- The registered instances, in list order. -/
def instances (m : ResourceMonitor) : List InstanceMonitoringData :=
  m.mNodeMonitoringData.mServiceInstances.mItems

/-- The instance ids of the registered instances, in list order. -/
def instanceIDs (m : ResourceMonitor) : List (StaticString cInstanceIDLen) :=
  m.instances.map (fun inst => inst.mInstanceID)

/-- A default-constructed monitor: every field value-initialised. -/
def fresh : ResourceMonitor :=
  { mNodeMonitoringData :=
      { mNodeID := default, mMonitoringData := ⟨0, 0, StaticArray.empty⟩, mTimestamp := 0,
        mServiceInstances := StaticArray.empty },
    mTimerSenders := ⟨none⟩, mTimerGatherers := ⟨none⟩,
    mFinishMonitoring := false, mNotifyMonitoring := false, mNotifySendMonitoring := false,
    mThreadMonitoring := ⟨none⟩, mThreadSendMonitoring := ⟨none⟩ }

/-- One call of the registry interface. -/
inductive RegistryCall where
  | start (uninitRAM uninitCPU : Nat) (instanceID : StaticString cInstanceIDLen)
      (monitoringConfig : InstanceMonitorParams)
  | stop (instanceID : StaticString cInstanceIDLen)

/-- The effect of one registry call on the monitor, with the error it returns. -/
def RegistryCall.apply (m : ResourceMonitor) : RegistryCall → ResourceMonitor × Error
  | .start r c instanceID cfg => m.StartInstanceMonitoring r c instanceID cfg
  | .stop instanceID => m.StopInstanceMonitoring instanceID

/-- The monitor after a sequence of registry calls, whatever each call returned. -/
def runCalls (m : ResourceMonitor) (calls : List RegistryCall) : ResourceMonitor :=
  calls.foldl (fun acc call => (call.apply acc).1) m

/-- The registry invariant: pairwise distinct instance ids and at most
cMaxNumInstances entries. -/
def RegistryInvariant (m : ResourceMonitor) : Prop :=
  m.instanceIDs.Nodup ∧ m.instances.length ≤ cMaxNumInstances

end ResourceMonitor

/-- An entry with only its disk partition list replaced by the partitions of
the given parameters. -/
def replaceDisk (cfg : InstanceMonitorParams) (inst : InstanceMonitoringData) :
    InstanceMonitoringData :=
  { inst with mMonitoringData := { inst.mMonitoringData with mDisk := cfg.mPartitions } }

/-! ## Values used by the tests (resourcemonitor_test.cpp) -/

namespace Test

/-- A bounded string from text; the empty string when the text does not fit. -/
def str (n : Nat) (s : String) : StaticString n :=
  if h : s.length ≤ n then ⟨s, h⟩ else default

/-- A partition info with only name and path set, as the tests build them. -/
def partition (name path : String) : PartitionInfo :=
  { mName := str _ name, mPath := str _ path, mTypes := StaticArray.empty,
    mTotalSize := 0, mUsedSize := 0 }

/-- The instance id of the tests. -/
def instance1 : StaticString cInstanceIDLen := str _ "instance1"

/-- The identity of the tests: serviceID, subjectID, instance 1. -/
def instanceIdent : InstanceIdent :=
  { mServiceID := str _ "serviceID", mSubjectID := str _ "subjectID", mInstance := 1 }

/-- The instance parameters of the tests: one partition. -/
def instanceMonitorParams : InstanceMonitorParams :=
  { mInstanceIdent := instanceIdent,
    mPartitions := ⟨[partition "partitionInstanceName" "partitionInstancePath"], by decide⟩ }

/-- Other instance parameters: another identity and two partitions. -/
def otherParams : InstanceMonitorParams :=
  { mInstanceIdent :=
      { mServiceID := str _ "otherService", mSubjectID := str _ "otherSubject", mInstance := 2 },
    mPartitions := ⟨[partition "state" "/state", partition "storage" "/storage"], by decide⟩ }

/-- The node parameters of the tests: node1 and one partition. -/
def nodeMonitorParams : NodeMonitorParams :=
  { mNodeID := str _ "node1",
    mPartitions := ⟨[partition "partitionName" "partitionPath"], by decide⟩ }

/-- An entry with the given id and no data. -/
def entry (id : String) : InstanceMonitoringData :=
  { mInstanceID := str _ id, mInstanceIdent := default,
    mMonitoringData := ⟨0, 0, StaticArray.empty⟩ }

/-- A monitor whose instance list is full: sixteen entries with distinct ids. -/
def fullMonitor : ResourceMonitor :=
  { ResourceMonitor.fresh with
    mNodeMonitoringData :=
      { ResourceMonitor.fresh.mNodeMonitoringData with
        mServiceInstances :=
          ⟨[entry "i0", entry "i1", entry "i2", entry "i3", entry "i4", entry "i5",
            entry "i6", entry "i7", entry "i8", entry "i9", entry "i10", entry "i11",
            entry "i12", entry "i13", entry "i14", entry "i15"], by decide⟩ } }

end Test

/-! ## The external collaborators -/

/-- Resource usage provider interface.  The provider has a state of its own, of
type σ.  The const methods read it; the two monitoring queries may change it,
and they receive the stored MonitoringData by reference: the function takes the
data as it is stored and yields the data as the provider leaves it, together
with the returned error. -/
structure ResourceUsageProviderItf (σ : Type) where
  GetNodeInfo : σ → NodeInfo → NodeInfo × Error
  GetNodeMonitoringData : σ → StaticString cNodeIDLen → MonitoringData → σ × MonitoringData × Error
  GetInstanceMonitoringData :
    σ → StaticString cInstanceIDLen → MonitoringData → σ × MonitoringData × Error
  GetResourceConfig : σ → NodeMonitorParams → NodeMonitorParams × Error

/-- Monitor sender interface, with a state of its own, of type τ. -/
structure SenderItf (τ : Type) where
  SendMonitoringData : τ → NodeMonitoringData → τ × Error

/-- A query made to the provider during a gather pass. -/
inductive ProviderQuery where
  | node (nodeID : StaticString cNodeIDLen)
  | inst (instanceID : StaticString cInstanceIDLen)
deriving DecidableEq

/-- One provider query of a gather pass as it happened: the query, the data the
provider left in its argument (the reading) and the error it returned. -/
structure GatherEvent where
  query : ProviderQuery
  reading : MonitoringData
  error : Error
deriving DecidableEq

/-- The instance id of an instance query. -/
def ProviderQuery.instanceID? : ProviderQuery → Option (StaticString cInstanceIDLen)
  | .node _ => none
  | .inst id => some id

/-- Outcome of one iteration of a worker loop, seen at its condition wait. -/
inductive LoopStep (α : Type) where
  | lockFailed (err : Error)
  | waiting
  | terminated
  | worked (a : α)

/-- What a gather pass leaves: the provider's state, the monitor, and the
queries made, in order. -/
structure GatherResult (σ : Type) where
  provider : σ
  monitor : ResourceMonitor
  events : List GatherEvent

/-- What a send step leaves: the sender's state, the monitor, and the snapshots
handed to the sender with the error returned for each. -/
structure SendResult (τ : Type) where
  sender : τ
  monitor : ResourceMonitor
  sent : List (NodeMonitoringData × Error)

/-- The loop `for (auto& instance : mServiceInstances)` of the gatherer: each
entry's MonitoringData is handed by reference to GetInstanceMonitoringData; the
returned error is only logged. -/
def gatherInstances {σ : Type} (p : ResourceUsageProviderItf σ) :
    σ → (l : List InstanceMonitoringData) →
      σ × { out : List InstanceMonitoringData // out.length = l.length } × List GatherEvent
  | s, [] => (s, ⟨[], rfl⟩, [])
  | s, inst :: rest =>
    let r := p.GetInstanceMonitoringData s inst.mInstanceID inst.mMonitoringData
    let rs := gatherInstances p r.1 rest
    (rs.1,
      ⟨{ inst with mMonitoringData := r.2.1 } :: rs.2.1.val, by simp [rs.2.1.property]⟩,
      ⟨.inst inst.mInstanceID, r.2.1, r.2.2⟩ :: rs.2.2)

namespace ResourceMonitor

/-- The gather pass of RunGatheringNodeMonitoringData (the body of the loop
after the due flag is cleared): the node query on the stored node data, then
the instance loop. -/
def gatherPass {σ : Type} (p : ResourceUsageProviderItf σ) (s : σ) (m : ResourceMonitor) :
    GatherResult σ :=
  let rn := p.GetNodeMonitoringData s m.mNodeMonitoringData.mNodeID
    m.mNodeMonitoringData.mMonitoringData
  let ri := gatherInstances p rn.1 m.mNodeMonitoringData.mServiceInstances.mItems
  { provider := ri.1,
    monitor :=
      { m with mNodeMonitoringData :=
          { m.mNodeMonitoringData with
            mMonitoringData := rn.2.1,
            mServiceInstances :=
              ⟨ri.2.1.val, by
                rw [ri.2.1.property]; exact m.mNodeMonitoringData.mServiceInstances.hSize⟩ } },
    events := ⟨.node m.mNodeMonitoringData.mNodeID, rn.2.1, rn.2.2⟩ :: ri.2.2 }

/-- One iteration of the loop of RunGatheringNodeMonitoringData, taken when the
thread holds the mutex: lockErr is LockGuard's error. -/
def gatherIteration {σ : Type} (p : ResourceUsageProviderItf σ) (lockErr : Error) (s : σ)
    (m : ResourceMonitor) : LoopStep (GatherResult σ) :=
  if lockErr.mErr != ErrorEnum.eNone then .lockFailed lockErr
  else if !(m.mFinishMonitoring || m.mNotifyMonitoring) then .waiting
  else if m.mFinishMonitoring then .terminated
  else .worked (gatherPass p s { m with mNotifyMonitoring := false })

/-- One iteration of the loop of RunSendMonitoringData, taken when the thread
holds the mutex: lockErr is LockGuard's error. -/
def sendIteration {τ : Type} (sender : SenderItf τ) (lockErr : Error) (t : τ)
    (m : ResourceMonitor) : LoopStep (SendResult τ) :=
  if lockErr.mErr != ErrorEnum.eNone then .lockFailed lockErr
  else if !(m.mFinishMonitoring || m.mNotifySendMonitoring) then .waiting
  else if m.mFinishMonitoring then .terminated
  else
    let r := sender.SendMonitoringData t m.mNodeMonitoringData
    .worked
      { sender := r.1,
        monitor := { m with mNotifySendMonitoring := false },
        sent := [(m.mNodeMonitoringData, r.2)] }

/-- ResourceMonitor::Init.  The verdicts of the timer and thread subsystems are
the arguments timerErr, gatherRunErr and sendRunErr; the result of
mTimerGatherers.Create is discarded, as in the source. -/
def Init {σ : Type} (m : ResourceMonitor) (p : ResourceUsageProviderItf σ) (s : σ)
    (timerErr gatherRunErr sendRunErr : Error) : ResourceMonitor × Error :=
  let nodeMonitorParams : NodeMonitorParams := ⟨default, StaticArray.empty⟩
  let rc := p.GetResourceConfig s nodeMonitorParams
  if !rc.2.IsNone then (m, rc.2)
  else
    let data : NodeMonitoringData :=
      { m.mNodeMonitoringData with
        mNodeID := rc.1.mNodeID,
        mMonitoringData :=
          { m.mNodeMonitoringData.mMonitoringData with
            mDisk := copyPartitions m.mNodeMonitoringData.mMonitoringData.mDisk
              rc.1.mPartitions.mItems } }
    let timer := (m.mTimerGatherers.Create cTimeoutGather .notifyMonitoring timerErr).1
    let rg := m.mThreadMonitoring.Run .gatherer gatherRunErr
    if !rg.2.IsNone then
      ({ m with mNodeMonitoringData := data, mTimerGatherers := timer,
                mThreadMonitoring := rg.1 }, rg.2)
    else
      let rs := m.mThreadSendMonitoring.Run .sender sendRunErr
      ({ m with mNodeMonitoringData := data, mTimerGatherers := timer,
                mThreadMonitoring := rg.1, mThreadSendMonitoring := rs.1 }, rs.2)

end ResourceMonitor

namespace Test

/-- MockResourceUsageProvider of the tests; its state is the field
mNodeMonitorParams set by SetNodeMonitorParams.  The EXPECT checks of the mock
are assertions of the test and are left out. -/
def MockResourceUsageProvider : ResourceUsageProviderItf NodeMonitorParams where
  GetNodeInfo := fun _ nodeInfo =>
    let partitionInfo : PartitionInfo :=
      { mName := str _ "partitionName", mPath := default,
        mTypes := (StaticArray.empty.EmplaceBack (str _ "partitionType")).1,
        mTotalSize := 1000, mUsedSize := 0 }
    ({ mNumCPUs := 1, mTotalRAM := 4000,
       mPartitions := (nodeInfo.mPartitions.EmplaceBack partitionInfo).1 },
      Error.ofEnum ErrorEnum.eNone)
  GetNodeMonitoringData := fun s _ monitoringData =>
    (s, { mCPU := 1, mRAM := 1000,
          mDisk := monitoringData.mDisk.modify 0 (fun d => { d with mUsedSize := 100 }) },
      Error.ofEnum ErrorEnum.eNone)
  GetInstanceMonitoringData := fun s _ monitoringData =>
    (s, { mCPU := 1, mRAM := 1000,
          mDisk := monitoringData.mDisk.modify 0 (fun d => { d with mUsedSize := 100 }) },
      Error.ofEnum ErrorEnum.eNone)
  GetResourceConfig := fun s _ => (s, Error.ofEnum ErrorEnum.eNone)

/-- A sender that records every snapshot it is handed and returns success, as
MockSender does after its checks. -/
def MockSender : SenderItf (List NodeMonitoringData) where
  SendMonitoringData := fun received monitoringData =>
    (received ++ [monitoringData], Error.ofEnum ErrorEnum.eNone)

/-- A provider whose monitoring queries write zeros for CPU and RAM into their
argument and then report eFailed, and whose config query reports eFailed. -/
def failingProvider : ResourceUsageProviderItf Unit where
  GetNodeInfo := fun _ nodeInfo => (nodeInfo, Error.ofEnum ErrorEnum.eFailed)
  GetNodeMonitoringData := fun s _ monitoringData =>
    (s, { monitoringData with mCPU := 0, mRAM := 0 }, Error.ofEnum ErrorEnum.eFailed)
  GetInstanceMonitoringData := fun s _ monitoringData =>
    (s, { monitoringData with mCPU := 0, mRAM := 0 }, Error.ofEnum ErrorEnum.eFailed)
  GetResourceConfig := fun _ nodeMonitorParams =>
    (nodeMonitorParams, ⟨ErrorEnum.eFailed, some "provider.cpp", 12⟩)

/-- The monitor of the tests after Init with the mock provider (node1, one
partition), the timer and both threads starting without error. -/
def initMonitor : ResourceMonitor :=
  (ResourceMonitor.fresh.Init MockResourceUsageProvider nodeMonitorParams
    (Error.ofEnum ErrorEnum.eNone) (Error.ofEnum ErrorEnum.eNone)
    (Error.ofEnum ErrorEnum.eNone)).1

/-- The monitor of the tests after instance1 is registered. -/
def registeredMonitor : ResourceMonitor :=
  (initMonitor.StartInstanceMonitoring 0 0 instance1 instanceMonitorParams).1

/-- A monitor on which both timers have fired: both due flags are set. -/
def fired (m : ResourceMonitor) : ResourceMonitor :=
  { m with mNotifyMonitoring := true, mNotifySendMonitoring := true }

/-- The monitor of the tests after one gather pass with the mock provider:
instance1 registered and sampled. -/
def sampledMonitor : ResourceMonitor :=
  (ResourceMonitor.gatherPass MockResourceUsageProvider nodeMonitorParams
    registeredMonitor).monitor

/-- The snapshot that MockSender expects when instance1 is registered. -/
def expectedSnapshot : NodeMonitoringData :=
  { mNodeID := str _ "node1",
    mMonitoringData :=
      { mRAM := 1000, mCPU := 1,
        mDisk := ⟨[{ partition "partitionName" "partitionPath" with mUsedSize := 100 }],
          by decide⟩ },
    mTimestamp := 0,
    mServiceInstances :=
      ⟨[{ mInstanceID := instance1, mInstanceIdent := instanceIdent,
          mMonitoringData :=
            { mRAM := 1000, mCPU := 1,
              mDisk := ⟨[{ partition "partitionInstanceName" "partitionInstancePath" with
                mUsedSize := 100 }], by decide⟩ } }], by decide⟩ }

end Test

/-- The provider's state after it has answered the instance queries for the
entries of l, in order, starting in state s. -/
def providerAfter {σ : Type} (p : ResourceUsageProviderItf σ) (s : σ)
    (l : List InstanceMonitoringData) : σ :=
  l.foldl (fun acc inst => (p.GetInstanceMonitoringData acc inst.mInstanceID
    inst.mMonitoringData).1) s

/-- The provider's answer to the instance query for the entry inst at position
i of the list l, in an instance loop that starts in provider state s: the
provider has answered the queries for the i entries before it. -/
def instanceReading {σ : Type} (p : ResourceUsageProviderItf σ) (s : σ)
    (l : List InstanceMonitoringData) (i : Nat) (inst : InstanceMonitoringData) :
    σ × MonitoringData × Error :=
  p.GetInstanceMonitoringData (providerAfter p s (l.take i)) inst.mInstanceID
    inst.mMonitoringData

/-- The provider's answer to the node query of a gather pass on monitor m. -/
def nodeReading {σ : Type} (p : ResourceUsageProviderItf σ) (s : σ) (m : ResourceMonitor) :
    σ × MonitoringData × Error :=
  p.GetNodeMonitoringData s m.mNodeMonitoringData.mNodeID m.mNodeMonitoringData.mMonitoringData

/-- The entry inst with its MonitoringData replaced by a reading. -/
def withReading (inst : InstanceMonitoringData) (reading : MonitoringData) :
    InstanceMonitoringData :=
  { inst with mMonitoringData := reading }

/-- The monitor with the gather due flag cleared, as the gatherer does when it
starts a pass. -/
def clearGatherDue (m : ResourceMonitor) : ResourceMonitor :=
  { m with mNotifyMonitoring := false }

/-! ## Node info and the send timer -/

namespace ResourceMonitor

/-- ResourceMonitor::GetNodeInfo, a const method: the monitor is returned as it
is.  The macro AOS_ERROR_WRAP of tools/error.hpp is not part of the sources at
hand; it is the argument wrap, applied to the error the provider returns. -/
def GetNodeInfo {σ : Type} (m : ResourceMonitor) (wrap : Error → Error)
    (p : ResourceUsageProviderItf σ) (s : σ) (nodeInfo : NodeInfo) :
    ResourceMonitor × NodeInfo × Error :=
  let r := p.GetNodeInfo s nodeInfo
  (m, r.1, wrap r.2)

/-- ResourceMonitor::StartSendMonitoring: arms the send timer and returns the
verdict of the timer subsystem, the argument timerErr. -/
def StartSendMonitoring (m : ResourceMonitor) (timerErr : Error) : ResourceMonitor × Error :=
  let r := m.mTimerSenders.Create cTimeoutSend .notifySendMonitoring timerErr
  ({ m with mTimerSenders := r.1 }, r.2)

/-- ResourceMonitor::StopSendMonitoring: stops the send timer and returns the
verdict of the timer subsystem, the argument timerErr. -/
def StopSendMonitoring (m : ResourceMonitor) (timerErr : Error) : ResourceMonitor × Error :=
  let r := m.mTimerSenders.Stop timerErr
  ({ m with mTimerSenders := r.1 }, r.2)

end ResourceMonitor

namespace Test

/-- A provider whose queries all report eFailed: the node query and the query
for instance1 leave their argument as it was, the query for any other instance
writes zeros for CPU and RAM first. -/
def mixedProvider : ResourceUsageProviderItf Unit where
  GetNodeInfo := fun _ nodeInfo => (nodeInfo, Error.ofEnum ErrorEnum.eFailed)
  GetNodeMonitoringData := fun s _ monitoringData =>
    (s, monitoringData, Error.ofEnum ErrorEnum.eFailed)
  GetInstanceMonitoringData := fun s instanceID monitoringData =>
    if instanceID = instance1 then (s, monitoringData, Error.ofEnum ErrorEnum.eFailed)
    else (s, { monitoringData with mCPU := 0, mRAM := 0 }, Error.ofEnum ErrorEnum.eFailed)
  GetResourceConfig := fun _ nodeMonitorParams =>
    (nodeMonitorParams, Error.ofEnum ErrorEnum.eFailed)

/-- The monitor of the tests with instance1 sampled and a second instance,
instance2, registered after it (its indeterminate RAM and CPU being 5 and 6). -/
def twoInstanceMonitor : ResourceMonitor :=
  (sampledMonitor.StartInstanceMonitoring 5 6 (str _ "instance2") otherParams).1

end Test

/-! ## Synchronisation statements of the callbacks and of the destructor -/

/-- The three flags of the monitor. -/
inductive Flag where
  | finishMonitoring
  | notifyMonitoring
  | notifySendMonitoring
deriving DecidableEq

/-- The assignment `flag = true`. -/
def Flag.set : Flag → ResourceMonitor → ResourceMonitor
  | .finishMonitoring, m => { m with mFinishMonitoring := true }
  | .notifyMonitoring, m => { m with mNotifyMonitoring := true }
  | .notifySendMonitoring, m => { m with mNotifySendMonitoring := true }

/-- The statements that occur in the timer callbacks and in the first block of
the destructor: taking the mutex (construction of a LockGuard), releasing it
(end of the LockGuard's scope), setting a flag, and NotifyAll on the shared
condition variable. -/
inductive SyncOp where
  | lock
  | unlock
  | setFlag (f : Flag)
  | notifyAll
deriving DecidableEq

/-- The effect of a statement on the monitor's fields. -/
def SyncOp.effect : SyncOp → ResourceMonitor → ResourceMonitor
  | .setFlag f, m => f.set m
  | _, m => m

/-- The bodies of the two timer callbacks, statement by statement: the lambda
given to mTimerGatherers.Create in Init and the lambda given to
mTimerSenders.Create in StartSendMonitoring. -/
def TimerCallback.body : TimerCallback → List SyncOp
  | .notifyMonitoring => [.setFlag .notifyMonitoring, .notifyAll]
  | .notifySendMonitoring => [.setFlag .notifySendMonitoring, .notifyAll]

/-- The first block of ResourceMonitor::~ResourceMonitor, statement by
statement. -/
def destructorSection : List SyncOp :=
  [.lock, .setFlag .finishMonitoring, .notifyAll, .unlock]

/-- The effect of a timer callback on the monitor's fields. -/
def TimerCallback.fire (cb : TimerCallback) (m : ResourceMonitor) : ResourceMonitor :=
  cb.body.foldl (fun acc op => op.effect acc) m

/-- The execution contexts that touch the monitor. -/
inductive Context where
  | gatherTimer
  | sendTimer
  | gathererThread
  | senderThread
  | caller
deriving DecidableEq

/-- A flag write as it happened: who wrote which flag, and whether the writer
held the mutex at that moment. -/
structure FlagWrite where
  writer : Context
  flag : Flag
  heldByWriter : Bool
deriving DecidableEq

/-- Modelled from the spec: the monitor together with the owner of the shared
mutex (Mutex and LockGuard are in tools/thread.hpp) and the flag writes so far. -/
structure SyncState where
  monitor : ResourceMonitor
  mutexHolder : Option Context
  writes : List FlagWrite
deriving DecidableEq

/-- One statement executed by a context; none when the statement cannot
proceed (the mutex is held by someone else). -/
def SyncOp.exec (ctx : Context) (st : SyncState) : SyncOp → Option SyncState
  | .lock => if st.mutexHolder = none then some { st with mutexHolder := some ctx } else none
  | .unlock => if st.mutexHolder = some ctx then some { st with mutexHolder := none } else none
  | .setFlag f =>
    some { st with
      monitor := (SyncOp.setFlag f).effect st.monitor,
      writes := st.writes ++ [⟨ctx, f, decide (st.mutexHolder = some ctx)⟩] }
  | .notifyAll => some st

/-- A list of statements executed in order by one context. -/
def runBody (ctx : Context) : SyncState → List SyncOp → Option SyncState
  | st, [] => some st
  | st, op :: rest =>
    match op.exec ctx st with
    | none => none
    | some st1 => runBody ctx st1 rest

/-! ## The monitor with its two loops and its collaborators -/

/-- State of a worker loop. -/
inductive LoopState where
  | running
  | terminated
deriving DecidableEq

/-- The monitor at run time: its fields, the states of the provider and of the
sender, the states of the two loops, every provider query made so far and
every snapshot handed to the sender so far. -/
structure System (σ τ : Type) where
  monitor : ResourceMonitor
  provider : σ
  sender : τ
  gathererLoop : LoopState
  senderLoop : LoopState
  queries : List GatherEvent
  sent : List (NodeMonitoringData × Error)

/-- What can happen to the monitor at run time.  A loop iteration runs with the
mutex held, so it is one step; a timer callback only sets a flag, which no loop
iteration reads after its wait, so it is a step of its own. -/
inductive Action where
  | gathererWake (lockErr : Error)
  | senderWake (lockErr : Error)
  | timer (cb : TimerCallback)
  | shutdown
  | registry (call : ResourceMonitor.RegistryCall)

namespace System

variable {σ τ : Type}

/-- One step of the system. -/
def step (p : ResourceUsageProviderItf σ) (snd : SenderItf τ) (sys : System σ τ) :
    Action → System σ τ
  | .gathererWake lockErr =>
    match sys.gathererLoop with
    | .terminated => sys
    | .running =>
      match ResourceMonitor.gatherIteration p lockErr sys.provider sys.monitor with
      | .lockFailed _ => sys
      | .waiting => sys
      | .terminated => { sys with gathererLoop := .terminated }
      | .worked g =>
        { sys with monitor := g.monitor, provider := g.provider,
                   queries := sys.queries ++ g.events }
  | .senderWake lockErr =>
    match sys.senderLoop with
    | .terminated => sys
    | .running =>
      match ResourceMonitor.sendIteration snd lockErr sys.sender sys.monitor with
      | .lockFailed _ => sys
      | .waiting => sys
      | .terminated => { sys with senderLoop := .terminated }
      | .worked r =>
        { sys with monitor := r.monitor, sender := r.sender, sent := sys.sent ++ r.sent }
  | .timer cb => { sys with monitor := cb.fire sys.monitor }
  | .shutdown =>
    { sys with monitor := destructorSection.foldl (fun acc op => op.effect acc) sys.monitor }
  | .registry call => { sys with monitor := (call.apply sys.monitor).1 }

/-- The system after a sequence of steps. -/
def run (p : ResourceUsageProviderItf σ) (snd : SenderItf τ) (sys : System σ τ)
    (acts : List Action) : System σ τ :=
  acts.foldl (step p snd) sys

end System

namespace Test

/-- The system of the tests after Init and the registration of instance1, both
timers fired and both loops running. -/
def system : System NodeMonitorParams (List NodeMonitoringData) :=
  { monitor := fired registeredMonitor, provider := nodeMonitorParams, sender := [],
    gathererLoop := .running, senderLoop := .running, queries := [], sent := [] }

end Test

/-- What stays as it is once the shutdown flag is set: the flag itself, the
queries made to the provider, the snapshots handed to the sender, the states of
both collaborators and the node-level MonitoringData. -/
def System.Frozen {σ τ : Type} (sys0 sys : System σ τ) : Prop :=
  sys.monitor.mFinishMonitoring = true ∧
  sys.queries = sys0.queries ∧
  sys.sent = sys0.sent ∧
  sys.provider = sys0.provider ∧
  sys.sender = sys0.sender ∧
  sys.monitor.mNodeMonitoringData.mMonitoringData
    = sys0.monitor.mNodeMonitoringData.mMonitoringData

/-- The identity part of an entry: instance id and identity. -/
def identityOf (inst : InstanceMonitoringData) : StaticString cInstanceIDLen × InstanceIdent :=
  (inst.mInstanceID, inst.mInstanceIdent)

end monitoring

end aos

/-! # Theorems -/

namespace aos

namespace monitoring

open ResourceMonitor

/-! ## Helper lemmas on the copy loop and on the registry operations -/

theorem StaticArray.ext_items {α : Type} {n : Nat} {a b : StaticArray α n}
    (h : a.mItems = b.mItems) : a = b := by
  cases a; cases b; cases h; rfl

theorem copyPartitions_items (l : List PartitionInfo) :
    ∀ dst : StaticArray PartitionInfo cMaxNumPartitions,
      dst.mItems.length + l.length ≤ cMaxNumPartitions →
      (copyPartitions dst l).mItems = dst.mItems ++ l := by
  induction l with
  | nil => intro dst _; simp [copyPartitions]
  | cons x xs ih =>
    intro dst h
    simp only [List.length_cons] at h
    have hlt : dst.mItems.length < cMaxNumPartitions := by omega
    have hstep : copyPartitions dst (x :: xs) = copyPartitions (dst.EmplaceBack x).1 xs := rfl
    have hitems : (dst.EmplaceBack x).1.mItems = dst.mItems ++ [x] := by
      simp [StaticArray.EmplaceBack, hlt]
    rw [hstep, ih _ (by rw [hitems]; simp; omega), hitems]
    simp

theorem copyPartitions_empty (a : StaticArray PartitionInfo cMaxNumPartitions) :
    copyPartitions StaticArray.empty a.mItems = a := by
  apply StaticArray.ext_items
  rw [copyPartitions_items]
  · simp [StaticArray.empty]
  · simpa [StaticArray.empty] using a.hSize

theorem copyPartitions_Clear (d a : StaticArray PartitionInfo cMaxNumPartitions) :
    copyPartitions d.Clear a.mItems = a := copyPartitions_empty a

/-- Replacing the instance list by itself changes nothing. -/
theorem withInstances_self (m : ResourceMonitor) :
    ({ m with mNodeMonitoringData :=
        { m.mNodeMonitoringData with
          mServiceInstances := m.mNodeMonitoringData.mServiceInstances } } : ResourceMonitor) = m := by
  cases m; rfl

theorem StartInstanceMonitoring_absent_room (m : ResourceMonitor) (r c : Nat)
    (id : StaticString cInstanceIDLen) (cfg : InstanceMonitorParams)
    (habs : ∀ e ∈ m.instances, e.mInstanceID ≠ id)
    (hlen : m.instances.length < cMaxNumInstances) :
    (m.StartInstanceMonitoring r c id cfg).2 = Error.ofEnum ErrorEnum.eNone ∧
    (m.StartInstanceMonitoring r c id cfg).1.instances
      = m.instances ++ [⟨id, cfg.mInstanceIdent, ⟨r, c, cfg.mPartitions⟩⟩] := by
  have hfind : m.mNodeMonitoringData.mServiceInstances.mItems.findIdx?
      (fun inst => inst.mInstanceID == id) = none := by
    rw [List.findIdx?_eq_none_iff]
    intro x hx
    simpa using habs x hx
  have hlen2 : m.mNodeMonitoringData.mServiceInstances.mItems.length < cMaxNumInstances := hlen
  simp [StartInstanceMonitoring, StaticArray.Find, hfind, Error.IsNone, Error.ofEnum,
    StaticArray.EmplaceBack, hlen2, instances, copyPartitions_empty]

theorem StartInstanceMonitoring_absent_full (m : ResourceMonitor) (r c : Nat)
    (id : StaticString cInstanceIDLen) (cfg : InstanceMonitorParams)
    (habs : ∀ e ∈ m.instances, e.mInstanceID ≠ id)
    (hlen : m.instances.length = cMaxNumInstances) :
    m.StartInstanceMonitoring r c id cfg = (m, Error.ofEnum ErrorEnum.eNone) := by
  have hfind : m.mNodeMonitoringData.mServiceInstances.mItems.findIdx?
      (fun inst => inst.mInstanceID == id) = none := by
    rw [List.findIdx?_eq_none_iff]
    intro x hx
    simpa using habs x hx
  have hlen2 : ¬ m.mNodeMonitoringData.mServiceInstances.mItems.length < cMaxNumInstances := by
    have : m.mNodeMonitoringData.mServiceInstances.mItems.length = cMaxNumInstances := hlen
    omega
  simp [StartInstanceMonitoring, StaticArray.Find, hfind, Error.IsNone, Error.ofEnum,
    StaticArray.EmplaceBack, hlen2, withInstances_self]

theorem StartInstanceMonitoring_present (m : ResourceMonitor) (r c : Nat)
    (id : StaticString cInstanceIDLen) (cfg : InstanceMonitorParams) (i : Nat)
    (hfind : m.instances.findIdx? (fun inst => inst.mInstanceID == id) = some i) :
    (m.StartInstanceMonitoring r c id cfg).2 = Error.ofEnum ErrorEnum.eNone ∧
    (m.StartInstanceMonitoring r c id cfg).1.instances
      = m.instances.modify (replaceDisk cfg) i := by
  have hfind2 : m.mNodeMonitoringData.mServiceInstances.mItems.findIdx?
      (fun inst => inst.mInstanceID == id) = some i := hfind
  simp [StartInstanceMonitoring, StaticArray.Find, hfind2, Error.IsNone, Error.ofEnum,
    instances, StaticArray.modify, copyPartitions_Clear]
  rfl

theorem StopInstanceMonitoring_instances (m : ResourceMonitor)
    (id : StaticString cInstanceIDLen) :
    (m.StopInstanceMonitoring id).1.instances
      = m.instances.filter (fun inst => !(inst.mInstanceID == id)) := by
  simp only [StopInstanceMonitoring, StaticArray.Remove, instances]
  split
  · rename_i h
    exact (List.filter_eq_self.mpr (List.filter_length_eq_length.mp h)).symm
  · rfl

theorem StopInstanceMonitoring_error (m : ResourceMonitor) (id : StaticString cInstanceIDLen) :
    (m.StopInstanceMonitoring id).2 =
      if (m.instances.filter (fun inst => !(inst.mInstanceID == id))).length = m.instances.length
      then Error.ofEnum ErrorEnum.eNotFound else Error.ofEnum ErrorEnum.eNone := by
  simp only [StopInstanceMonitoring, StaticArray.Remove, instances]
  split <;> rfl

theorem map_modify_same {α β : Type} (key : α → β) (g : α → α) (hg : ∀ x, key (g x) = key x) :
    ∀ (l : List α) (i : Nat), (l.modify g i).map key = l.map key := by
  intro l
  induction l with
  | nil => intro i; cases i <;> rfl
  | cons x xs ih =>
    intro i
    cases i with
    | zero => simp [List.modify, List.modifyHead, hg]
    | succ j =>
      have h := ih j
      simpa [List.modify] using h

theorem filter_ne_eq_eraseIdx {α β : Type} [DecidableEq β] (key : α → β) (id : β) :
    ∀ (l : List α) (i : Nat), (l.map key).Nodup →
      l.findIdx? (fun x => key x == id) = some i →
      l.filter (fun x => !(key x == id)) = l.eraseIdx i := by
  intro l
  induction l with
  | nil => intro i _ h; simp at h
  | cons x xs ih =>
    intro i hnd hfind
    rw [List.map_cons, List.nodup_cons] at hnd
    by_cases hx : key x = id
    · have hi : i = 0 := by
        simp [List.findIdx?_cons, hx] at hfind
        exact hfind.symm
      subst hi
      have hall : ∀ a ∈ xs, (!(key a == id)) = true := by
        intro a ha
        have : key a ≠ id := by
          intro hkey
          exact hnd.1 (by rw [hx, ← hkey]; exact List.mem_map_of_mem key ha)
        simpa using this
      simp [List.filter_cons, hx, List.filter_eq_self.mpr hall]
    · have hne : (key x == id) = false := by simpa using hx
      rw [List.findIdx?_cons, hne] at hfind
      simp only [Bool.false_eq_true, if_false] at hfind
      cases hrec : xs.findIdx? (fun x => key x == id) with
      | none =>
        simp [List.findIdx?_succ, hrec] at hfind
      | some j =>
        have hij : i = j + 1 := by
          simp [List.findIdx?_succ, hrec] at hfind
          omega
        subst hij
        simp [List.filter_cons, hne, ih j hnd.2 hrec]

theorem invariant_apply (m : ResourceMonitor) (call : RegistryCall)
    (hinv : RegistryInvariant m) : RegistryInvariant (call.apply m).1 := by
  refine ⟨?_, (call.apply m).1.mNodeMonitoringData.mServiceInstances.hSize⟩
  cases call with
  | start r c id cfg =>
    simp only [RegistryCall.apply]
    cases hfind : m.instances.findIdx? (fun inst => inst.mInstanceID == id) with
    | none =>
      have habs : ∀ e ∈ m.instances, e.mInstanceID ≠ id := by
        intro e he
        have := (List.findIdx?_eq_none_iff.mp hfind) e he
        simpa using this
      by_cases hlen : m.instances.length < cMaxNumInstances
      · have h := (StartInstanceMonitoring_absent_room m r c id cfg habs hlen).2
        simp only [instanceIDs, h, List.map_append, List.map_cons, List.map_nil]
        have hnot : id ∉ m.instances.map (fun inst => inst.mInstanceID) := by
          intro hmem
          obtain ⟨e, he, hid⟩ := List.mem_map.mp hmem
          exact habs e he hid
        exact List.Nodup.append hinv.1 (List.nodup_singleton _)
          (by simpa [List.Disjoint] using hnot)
      · have hfull : m.instances.length = cMaxNumInstances := by
          have := hinv.2
          omega
        rw [StartInstanceMonitoring_absent_full m r c id cfg habs hfull]
        exact hinv.1
    | some i =>
      have h := (StartInstanceMonitoring_present m r c id cfg i hfind).2
      simp only [instanceIDs, h]
      rw [map_modify_same (fun inst : InstanceMonitoringData => inst.mInstanceID)
        (replaceDisk cfg) (fun _ => rfl)]
      exact hinv.1
  | stop id =>
    simp only [RegistryCall.apply, instanceIDs, StopInstanceMonitoring_instances]
    exact hinv.1.sublist ((List.filter_sublist _).map _)

theorem invariant_runCalls (calls : List RegistryCall) :
    ∀ m : ResourceMonitor, RegistryInvariant m → RegistryInvariant (runCalls m calls) := by
  induction calls with
  | nil => intro m h; exact h
  | cons call rest ih =>
    intro m h
    exact ih _ (invariant_apply m call h)

/-! ## Registry claims -/

/-- C1: starting from an empty instance list, after every call of any finite
sequence of StartInstanceMonitoring and StopInstanceMonitoring calls (that is,
after every initial segment of the sequence) the instance ids are pairwise
distinct and the list has at most cMaxNumInstances entries. -/
theorem registry_invariant_after_every_call (m : ResourceMonitor) (hempty : m.instances = [])
    (calls : List RegistryCall) (k : Nat) :
    (runCalls m (calls.take k)).instanceIDs.Nodup ∧
    (runCalls m (calls.take k)).instances.length ≤ 16 := by
  have h0 : RegistryInvariant m := by
    simp [RegistryInvariant, instanceIDs, hempty]
  exact invariant_runCalls (calls.take k) m h0

/-- Witness of C1: register instance1 twice, stop it, register it again, seen
after the second call. -/
theorem registry_invariant_after_every_call_witness :
    (runCalls fresh (List.take 2
      [RegistryCall.start 7 9 Test.instance1 Test.instanceMonitorParams,
       RegistryCall.start 0 0 Test.instance1 Test.instanceMonitorParams,
       RegistryCall.stop Test.instance1,
       RegistryCall.start 0 0 Test.instance1 Test.instanceMonitorParams])).instanceIDs.Nodup ∧
    (runCalls fresh (List.take 2
      [RegistryCall.start 7 9 Test.instance1 Test.instanceMonitorParams,
       RegistryCall.start 0 0 Test.instance1 Test.instanceMonitorParams,
       RegistryCall.stop Test.instance1,
       RegistryCall.start 0 0 Test.instance1 Test.instanceMonitorParams])).instances.length ≤ 16 :=
  registry_invariant_after_every_call fresh rfl _ 2

/-- C2 (the code at the failing input): on the full list of sixteen entries
i0..i15, registering the absent id new returns success, not a capacity error;
the instance list is left unchanged, so the registration is dropped silently. -/
theorem StartInstanceMonitoring_full_reports_success :
    (Test.fullMonitor.StartInstanceMonitoring 0 0 (Test.str cInstanceIDLen "new")
        Test.instanceMonitorParams).2 = Error.ofEnum ErrorEnum.eNone ∧
    (Test.fullMonitor.StartInstanceMonitoring 0 0 (Test.str cInstanceIDLen "new")
        Test.instanceMonitorParams).1 = Test.fullMonitor ∧
    Test.fullMonitor.instances.length = cMaxNumInstances ∧
    (Test.str cInstanceIDLen "new") ∉ Test.fullMonitor.instanceIDs := by
  decide

/-- C3: when the list has an entry with id instanceID, StartInstanceMonitoring
returns success and the new list is the old one with the first such entry, at
position i (no entry before it has that id), replaced by the same entry with
only its disk partition list changed to the partitions of the parameters; so
the length, the position, the entry's id, identity, CPU and RAM, and every
other entry are unchanged. -/
theorem StartInstanceMonitoring_present_frame (m : ResourceMonitor) (r c : Nat)
    (instanceID : StaticString cInstanceIDLen) (cfg : InstanceMonitorParams)
    (hpres : ∃ e ∈ m.instances, e.mInstanceID = instanceID) :
    (m.StartInstanceMonitoring r c instanceID cfg).2 = Error.ofEnum ErrorEnum.eNone ∧
    ∃ i, ∃ hi : i < m.instances.length,
      (m.instances.get ⟨i, hi⟩).mInstanceID = instanceID ∧
      (∀ (j : Nat) (before : InstanceMonitoringData), j < i → m.instances[j]? = some before →
        before.mInstanceID ≠ instanceID) ∧
      (m.StartInstanceMonitoring r c instanceID cfg).1.instances
        = m.instances.set i
            { mInstanceID := (m.instances.get ⟨i, hi⟩).mInstanceID,
              mInstanceIdent := (m.instances.get ⟨i, hi⟩).mInstanceIdent,
              mMonitoringData :=
                { mRAM := (m.instances.get ⟨i, hi⟩).mMonitoringData.mRAM,
                  mCPU := (m.instances.get ⟨i, hi⟩).mMonitoringData.mCPU,
                  mDisk := cfg.mPartitions } } ∧
      (m.StartInstanceMonitoring r c instanceID cfg).1.instances.length = m.instances.length ∧
      (∀ j, j ≠ i →
        (m.StartInstanceMonitoring r c instanceID cfg).1.instances[j]? = m.instances[j]?) := by
  have hex : ∃ x, x ∈ m.instances ∧ (fun inst => inst.mInstanceID == instanceID) x = true := by
    obtain ⟨e, he, hid⟩ := hpres
    exact ⟨e, he, by simpa using hid⟩
  have hfind := List.findIdx?_eq_some_of_exists hex
  obtain ⟨hi, hp, hfirst⟩ := List.findIdx?_eq_some_iff_getElem.mp hfind
  have h := StartInstanceMonitoring_present m r c instanceID cfg _ hfind
  refine ⟨h.1, _, hi, by simpa using hp, ?_, ?_, ?_, ?_⟩
  · intro j before hj hget
    have hjl : j < m.instances.length := Nat.lt_trans hj hi
    have hb : m.instances[j] = before := by
      rw [List.getElem?_eq_getElem hjl] at hget
      exact Option.some.inj hget
    have := hfirst j hj
    rw [hb] at this
    simpa using this
  · rw [h.2, List.modify_eq_set_get _ hi]
    rfl
  · rw [h.2]; simp
  · intro j hj
    rw [h.2]
    exact List.getElem?_modify_ne _ _ (Ne.symm hj)

/-- Witness of C3: instance1 registered twice. -/
theorem StartInstanceMonitoring_present_frame_witness :
    (∃ e ∈ (fresh.StartInstanceMonitoring 7 9 Test.instance1 Test.otherParams).1.instances,
      e.mInstanceID = Test.instance1) ∧
    ((fresh.StartInstanceMonitoring 7 9 Test.instance1 Test.otherParams).1.StartInstanceMonitoring 0 0
      Test.instance1 Test.instanceMonitorParams).2 = Error.ofEnum ErrorEnum.eNone :=
  ⟨⟨_, List.mem_singleton.mpr rfl, rfl⟩,
    (StartInstanceMonitoring_present_frame
      (fresh.StartInstanceMonitoring 7 9 Test.instance1 Test.otherParams).1 0 0 Test.instance1
      Test.instanceMonitorParams ⟨_, List.mem_singleton.mpr rfl, rfl⟩).1⟩

/-- C4: when the list has fewer than cMaxNumInstances (16) entries and none
with id instanceID, StartInstanceMonitoring returns success and the new list is
the old list followed by exactly one entry, whose instance id is instanceID,
whose identity is the identity of the parameters and whose disk partition list
is the partition list of the parameters. -/
theorem StartInstanceMonitoring_absent_appends (m : ResourceMonitor) (r c : Nat)
    (instanceID : StaticString cInstanceIDLen) (cfg : InstanceMonitorParams)
    (hlen : m.instances.length < 16)
    (habs : ∀ e ∈ m.instances, e.mInstanceID ≠ instanceID) :
    (m.StartInstanceMonitoring r c instanceID cfg).2 = Error.ofEnum ErrorEnum.eNone ∧
    ∃ added : InstanceMonitoringData,
      (m.StartInstanceMonitoring r c instanceID cfg).1.instances = m.instances ++ [added] ∧
      added.mInstanceID = instanceID ∧
      added.mInstanceIdent = cfg.mInstanceIdent ∧
      added.mMonitoringData.mDisk = cfg.mPartitions := by
  have h := StartInstanceMonitoring_absent_room m r c instanceID cfg habs hlen
  exact ⟨h.1, _, h.2, rfl, rfl, rfl⟩

/-- Witness of C4: the registration of the test, on a fresh monitor. -/
theorem StartInstanceMonitoring_absent_appends_witness :
    (fresh.StartInstanceMonitoring 0 0 Test.instance1 Test.instanceMonitorParams).2
      = Error.ofEnum ErrorEnum.eNone ∧
    ∃ added : InstanceMonitoringData,
      (fresh.StartInstanceMonitoring 0 0 Test.instance1 Test.instanceMonitorParams).1.instances
        = fresh.instances ++ [added] ∧
      added.mInstanceID = Test.instance1 ∧
      added.mInstanceIdent = Test.instanceMonitorParams.mInstanceIdent ∧
      added.mMonitoringData.mDisk = Test.instanceMonitorParams.mPartitions :=
  StartInstanceMonitoring_absent_appends fresh 0 0 Test.instance1 Test.instanceMonitorParams
    (by decide) (by intro e he; cases he)

/-- C5: when no entry has id instanceID, StopInstanceMonitoring returns the
not-found error and leaves the monitor, hence its instance list, unchanged. -/
theorem StopInstanceMonitoring_absent (m : ResourceMonitor)
    (instanceID : StaticString cInstanceIDLen)
    (habs : ∀ e ∈ m.instances, e.mInstanceID ≠ instanceID) :
    (m.StopInstanceMonitoring instanceID).2 = Error.ofEnum ErrorEnum.eNotFound ∧
    (m.StopInstanceMonitoring instanceID).1 = m := by
  have hall : ∀ a ∈ m.mNodeMonitoringData.mServiceInstances.mItems,
      (!(a.mInstanceID == instanceID)) = true := by
    intro a ha
    simpa using habs a ha
  have hlen := List.filter_length_eq_length.mpr hall
  simp [StopInstanceMonitoring, StaticArray.Remove, hlen, withInstances_self]

/-- Witness of C5: stopping instance1 on a fresh monitor, whose list is empty. -/
theorem StopInstanceMonitoring_absent_witness :
    (fresh.StopInstanceMonitoring Test.instance1).2 = Error.ofEnum ErrorEnum.eNotFound ∧
    (fresh.StopInstanceMonitoring Test.instance1).1 = fresh ∧
    fresh.instances.length = 0 :=
  ⟨(StopInstanceMonitoring_absent fresh Test.instance1 (by intro e he; cases he)).1,
   (StopInstanceMonitoring_absent fresh Test.instance1 (by intro e he; cases he)).2, rfl⟩

/-- C6: when the instance ids are pairwise distinct and some entry has id
instanceID, StopInstanceMonitoring returns success and the new list is the old
list with the entry at one position i, the one with id instanceID, erased: the
length decreases by one, no entry with id instanceID remains, and the other
entries keep their content and relative order. -/
theorem StopInstanceMonitoring_removes_entry (m : ResourceMonitor)
    (instanceID : StaticString cInstanceIDLen)
    (hnodup : m.instanceIDs.Nodup)
    (hpres : ∃ e ∈ m.instances, e.mInstanceID = instanceID) :
    (m.StopInstanceMonitoring instanceID).2 = Error.ofEnum ErrorEnum.eNone ∧
    (∃ i, ∃ hi : i < m.instances.length,
      (m.instances.get ⟨i, hi⟩).mInstanceID = instanceID ∧
      (m.StopInstanceMonitoring instanceID).1.instances = m.instances.eraseIdx i) ∧
    (m.StopInstanceMonitoring instanceID).1.instances.length + 1 = m.instances.length ∧
    (∀ e ∈ (m.StopInstanceMonitoring instanceID).1.instances, e.mInstanceID ≠ instanceID) := by
  have hex : ∃ x, x ∈ m.instances ∧ (fun inst => inst.mInstanceID == instanceID) x = true := by
    obtain ⟨e, he, hid⟩ := hpres
    exact ⟨e, he, by simpa using hid⟩
  have hfind := List.findIdx?_eq_some_of_exists hex
  obtain ⟨hi, hp, _⟩ := List.findIdx?_eq_some_iff_getElem.mp hfind
  have herase := filter_ne_eq_eraseIdx (fun inst : InstanceMonitoringData => inst.mInstanceID)
    instanceID m.instances _ hnodup hfind
  have hlen : (m.instances.eraseIdx
      (m.instances.findIdx (fun inst => inst.mInstanceID == instanceID))).length + 1
        = m.instances.length := by
    rw [List.length_eraseIdx]
    simp only [hi, if_true]
    omega
  refine ⟨?_, ⟨_, hi, by simpa using hp, ?_⟩, ?_, ?_⟩
  · rw [StopInstanceMonitoring_error, herase]
    have : ¬ (m.instances.eraseIdx
        (m.instances.findIdx (fun inst => inst.mInstanceID == instanceID))).length
          = m.instances.length := by omega
    simp [this]
  · rw [StopInstanceMonitoring_instances, herase]
  · rw [StopInstanceMonitoring_instances, herase]
    exact hlen
  · intro e he
    rw [StopInstanceMonitoring_instances] at he
    have := (List.mem_filter.mp he).2
    simpa using this

/-- Witness of C6: stopping i3 on the list i0..i15. -/
theorem StopInstanceMonitoring_removes_entry_witness :
    (Test.fullMonitor.StopInstanceMonitoring (Test.str cInstanceIDLen "i3")).2
      = Error.ofEnum ErrorEnum.eNone ∧
    (Test.fullMonitor.StopInstanceMonitoring (Test.str cInstanceIDLen "i3")).1.instances.length + 1
      = Test.fullMonitor.instances.length :=
  ⟨(StopInstanceMonitoring_removes_entry Test.fullMonitor (Test.str cInstanceIDLen "i3")
      (by decide) ⟨Test.entry "i3", by decide, by decide⟩).1,
   (StopInstanceMonitoring_removes_entry Test.fullMonitor (Test.str cInstanceIDLen "i3")
      (by decide) ⟨Test.entry "i3", by decide, by decide⟩).2.2.1⟩

/-! ## Helper lemmas on the gather pass -/

theorem gatherInstances_provider {σ : Type} (p : ResourceUsageProviderItf σ) :
    ∀ (l : List InstanceMonitoringData) (s : σ),
      (gatherInstances p s l).1 = providerAfter p s l := by
  intro l
  induction l with
  | nil => intro s; rfl
  | cons inst rest ih =>
    intro s
    simp only [gatherInstances, providerAfter, List.foldl_cons]
    exact ih _

theorem gatherInstances_getElem? {σ : Type} (p : ResourceUsageProviderItf σ) :
    ∀ (l : List InstanceMonitoringData) (s : σ) (i : Nat) (inst : InstanceMonitoringData),
      l[i]? = some inst →
      (gatherInstances p s l).2.1.val[i]?
        = some { inst with mMonitoringData := (instanceReading p s l i inst).2.1 } := by
  intro l
  induction l with
  | nil => intro s i inst h; simp at h
  | cons x rest ih =>
    intro s i inst h
    cases i with
    | zero =>
      simp only [List.getElem?_cons_zero, Option.some.injEq] at h
      subst h
      simp [gatherInstances, instanceReading, providerAfter]
    | succ j =>
      simp only [List.getElem?_cons_succ] at h
      have := ih (p.GetInstanceMonitoringData s x.mInstanceID x.mMonitoringData).1 j inst h
      simpa [gatherInstances, instanceReading, providerAfter] using this

theorem gatherInstances_events {σ : Type} (p : ResourceUsageProviderItf σ) :
    ∀ (l : List InstanceMonitoringData) (s : σ) (i : Nat) (inst : InstanceMonitoringData),
      l[i]? = some inst →
      (gatherInstances p s l).2.2[i]?
        = some ⟨.inst inst.mInstanceID, (instanceReading p s l i inst).2.1,
            (instanceReading p s l i inst).2.2⟩ := by
  intro l
  induction l with
  | nil => intro s i inst h; simp at h
  | cons x rest ih =>
    intro s i inst h
    cases i with
    | zero =>
      simp only [List.getElem?_cons_zero, Option.some.injEq] at h
      subst h
      simp [gatherInstances, instanceReading, providerAfter]
    | succ j =>
      simp only [List.getElem?_cons_succ] at h
      have := ih (p.GetInstanceMonitoringData s x.mInstanceID x.mMonitoringData).1 j inst h
      simpa [gatherInstances, instanceReading, providerAfter] using this

theorem gatherInstances_queries {σ : Type} (p : ResourceUsageProviderItf σ) :
    ∀ (l : List InstanceMonitoringData) (s : σ),
      (gatherInstances p s l).2.2.map (fun e => e.query)
        = l.map (fun inst => ProviderQuery.inst inst.mInstanceID) := by
  intro l
  induction l with
  | nil => intro s; rfl
  | cons x rest ih =>
    intro s
    simp only [gatherInstances, List.map_cons]
    rw [ih]

theorem gatherPass_instances {σ : Type} (p : ResourceUsageProviderItf σ) (s : σ)
    (m : ResourceMonitor) :
    (gatherPass p s m).monitor.instances
      = (gatherInstances p (nodeReading p s m).1 m.instances).2.1.val := rfl

theorem gatherPass_events {σ : Type} (p : ResourceUsageProviderItf σ) (s : σ)
    (m : ResourceMonitor) :
    (gatherPass p s m).events
      = ⟨.node m.mNodeMonitoringData.mNodeID, (nodeReading p s m).2.1, (nodeReading p s m).2.2⟩
        :: (gatherInstances p (nodeReading p s m).1 m.instances).2.2 := rfl

/-! ## Gather claims -/

/-- C7: in one gather pass the provider is asked the node query and then one
instance query per registered entry, in list order (so every registered
instance is queried exactly once); and for every entry whose own instance query
succeeds, the entry's stored MonitoringData after the pass is the provider's
reading for it, with id and identity kept, whatever the node query and the
queries for the other entries returned. -/
theorem gatherPass_queries_each_instance_once {σ : Type} (p : ResourceUsageProviderItf σ) (s : σ)
    (m : ResourceMonitor) :
    (gatherPass p s m).events.map (fun e => e.query)
      = ProviderQuery.node m.mNodeMonitoringData.mNodeID
        :: m.instances.map (fun inst => ProviderQuery.inst inst.mInstanceID) ∧
    (gatherPass p s m).events.filterMap (fun e => e.query.instanceID?) = m.instanceIDs ∧
    (gatherPass p s m).monitor.instances.length = m.instances.length ∧
    ∀ (i : Nat) (inst : InstanceMonitoringData), m.instances[i]? = some inst →
      (instanceReading p (nodeReading p s m).1 m.instances i inst).2.2.IsNone = true →
      (gatherPass p s m).monitor.instances[i]?
        = some { mInstanceID := inst.mInstanceID, mInstanceIdent := inst.mInstanceIdent,
                 mMonitoringData :=
                   (instanceReading p (nodeReading p s m).1 m.instances i inst).2.1 } := by
  have hq := gatherInstances_queries p m.instances (nodeReading p s m).1
  refine ⟨?_, ?_, ?_, ?_⟩
  · rw [gatherPass_events, List.map_cons, hq]
  · rw [gatherPass_events]
    have : ((gatherInstances p (nodeReading p s m).1 m.instances).2.2).filterMap
        (fun e => e.query.instanceID?) = m.instanceIDs := by
      have h2 := congrArg (List.filterMap ProviderQuery.instanceID?) hq
      rw [List.filterMap_map, List.filterMap_map] at h2
      have h3 := congrFun (List.filterMap_eq_map
        (fun x : InstanceMonitoringData => x.mInstanceID)) m.instances
      simp only [Function.comp_def] at h2 h3
      exact h2.trans h3
    simpa [List.filterMap_cons, ProviderQuery.instanceID?] using this
  · rw [gatherPass_instances]
    exact (gatherInstances p (nodeReading p s m).1 m.instances).2.1.property
  · intro i inst hi _
    rw [gatherPass_instances]
    exact gatherInstances_getElem? p m.instances _ i inst hi

/-- Witness of C7: the mock provider on the monitor with instance1 registered;
the entry at position 0 holds the mock's reading after the pass. -/
theorem gatherPass_queries_each_instance_once_witness :
    (gatherPass Test.MockResourceUsageProvider Test.nodeMonitorParams
        Test.sampledMonitor).events.filterMap (fun e => e.query.instanceID?)
      = [Test.instance1] ∧
    ((gatherPass Test.MockResourceUsageProvider Test.nodeMonitorParams
        Test.sampledMonitor).monitor.instances[0]?).map (fun inst => inst.mMonitoringData.mCPU)
      = some 1 :=
  ⟨(gatherPass_queries_each_instance_once Test.MockResourceUsageProvider Test.nodeMonitorParams
      Test.sampledMonitor).2.1,
   by
    rw [(gatherPass_queries_each_instance_once Test.MockResourceUsageProvider
      Test.nodeMonitorParams Test.sampledMonitor).2.2.2 0 _ rfl (by decide)]
    decide⟩

/-- C8 (counterexample): a provider that writes zeros for CPU and RAM into its
argument before it reports eFailed.  Both queries of the pass return an error,
yet the MonitoringData stored for instance1 and for the node differ from what
was stored before the pass (CPU 1 and RAM 1000 became 0 and 0). -/
theorem gatherPass_error_overwrites_sample :
    (gatherPass Test.failingProvider () Test.sampledMonitor).events.map
        (fun e => (e.query, e.error.IsNone))
      = [(ProviderQuery.node (Test.str cNodeIDLen "node1"), false),
         (ProviderQuery.inst Test.instance1, false)] ∧
    Test.sampledMonitor.instances.map (fun inst => (inst.mMonitoringData.mCPU,
        inst.mMonitoringData.mRAM)) = [(1, 1000)] ∧
    (gatherPass Test.failingProvider () Test.sampledMonitor).monitor.instances.map
        (fun inst => (inst.mMonitoringData.mCPU, inst.mMonitoringData.mRAM)) = [(0, 0)] ∧
    (gatherPass Test.failingProvider () Test.sampledMonitor).monitor.instances.map
        (fun inst => inst.mMonitoringData)
      ≠ Test.sampledMonitor.instances.map (fun inst => inst.mMonitoringData) ∧
    (gatherPass Test.failingProvider () Test.sampledMonitor).monitor.mNodeMonitoringData.mMonitoringData
      ≠ Test.sampledMonitor.mNodeMonitoringData.mMonitoringData := by
  decide

/-- C8 (amended): the stored MonitoringData is the provider's in-out argument,
so after a query it is what the provider left there, whatever error the query
returned.  Query by query: every entry whose own instance query returns an
error and leaves the MonitoringData it was handed as it was is, after the pass,
identical to the entry before the pass, whatever the provider does in its
other queries; and the node-level MonitoringData is unchanged when the node
query returns an error and leaves its argument as it was. -/
theorem gatherPass_error_keeps_sample {σ : Type} (p : ResourceUsageProviderItf σ) (s : σ)
    (m : ResourceMonitor) :
    (∀ (i : Nat) (inst : InstanceMonitoringData), m.instances[i]? = some inst →
      (instanceReading p (nodeReading p s m).1 m.instances i inst).2.2.IsNone = false →
      (instanceReading p (nodeReading p s m).1 m.instances i inst).2.1 = inst.mMonitoringData →
      (gatherPass p s m).monitor.instances[i]? = some inst) ∧
    ((nodeReading p s m).2.2.IsNone = false →
      (nodeReading p s m).2.1 = m.mNodeMonitoringData.mMonitoringData →
      (gatherPass p s m).monitor.mNodeMonitoringData.mMonitoringData
        = m.mNodeMonitoringData.mMonitoringData) ∧
    (∀ (i : Nat) (inst : InstanceMonitoringData), m.instances[i]? = some inst →
      (gatherPass p s m).monitor.instances[i]?
        = some (withReading inst
            (instanceReading p (nodeReading p s m).1 m.instances i inst).2.1)) ∧
    (gatherPass p s m).monitor.mNodeMonitoringData.mMonitoringData = (nodeReading p s m).2.1 := by
  refine ⟨?_, ?_, ?_, rfl⟩
  · intro i inst hi _ hkeep
    rw [gatherPass_instances, gatherInstances_getElem? p m.instances _ i inst hi, hkeep]
  · intro _ hkeep
    exact hkeep
  · intro i inst hi
    rw [gatherPass_instances, gatherInstances_getElem? p m.instances _ i inst hi]
    rfl

/-- Witness of C8 (amended): a provider whose queries all report eFailed, that
leaves its argument as it was for the node and for instance1 and writes zeros
for every other instance, on a monitor with instance1 and instance2.  The
entry of instance1 and the node-level data are as before the pass; the entry of
instance2 is not. -/
theorem gatherPass_error_keeps_sample_witness :
    (gatherPass Test.mixedProvider () Test.twoInstanceMonitor).monitor.instances[0]?
      = Test.twoInstanceMonitor.instances[0]? ∧
    (gatherPass Test.mixedProvider () Test.twoInstanceMonitor).monitor.mNodeMonitoringData.mMonitoringData
      = Test.twoInstanceMonitor.mNodeMonitoringData.mMonitoringData ∧
    (gatherPass Test.mixedProvider () Test.twoInstanceMonitor).monitor.instances[1]?
      ≠ Test.twoInstanceMonitor.instances[1]? :=
  ⟨(gatherPass_error_keeps_sample Test.mixedProvider () Test.twoInstanceMonitor).1 0 _ rfl
      (by decide) (by decide),
   (gatherPass_error_keeps_sample Test.mixedProvider () Test.twoInstanceMonitor).2.1
      (by decide) (by decide),
   by decide⟩

/-! ## Helper lemmas for the snapshot handed to the sender -/

theorem gatherInstances_zip {σ : Type} (p : ResourceUsageProviderItf σ) :
    ∀ (l : List InstanceMonitoringData) (s : σ),
      (gatherInstances p s l).2.1.val
        = List.zipWith withReading l ((gatherInstances p s l).2.2.map (fun e => e.reading)) := by
  intro l
  induction l with
  | nil => intro s; rfl
  | cons x rest ih =>
    intro s
    simp only [gatherInstances, List.map_cons, List.zipWith_cons_cons]
    rw [← ih]
    rfl

theorem zipWith_withReading_idem :
    ∀ (l : List InstanceMonitoringData) (rs : List MonitoringData),
      List.zipWith withReading (List.zipWith withReading l rs) rs
        = List.zipWith withReading l rs := by
  intro l
  induction l with
  | nil => intro rs; simp
  | cons x rest ih =>
    intro rs
    cases rs with
    | nil => simp
    | cons r rs => simp [List.zipWith_cons_cons, ih, withReading]

theorem NodeMonitoringData.eq_of_fields (a b : NodeMonitoringData)
    (h1 : a.mNodeID = b.mNodeID) (h2 : a.mMonitoringData = b.mMonitoringData)
    (h3 : a.mTimestamp = b.mTimestamp)
    (h4 : a.mServiceInstances.mItems = b.mServiceInstances.mItems) : a = b := by
  cases a; cases b
  simp only [NodeMonitoringData.mk.injEq]
  exact ⟨h1, h2, h3, StaticArray.ext_items h4⟩

theorem gatherPass_repeat {σ : Type} (p : ResourceUsageProviderItf σ) (s s2 : σ)
    (m : ResourceMonitor)
    (hsame : (gatherPass p s2 (gatherPass p s m).monitor).events.map (fun e => e.reading)
      = (gatherPass p s m).events.map (fun e => e.reading)) :
    (gatherPass p s2 (gatherPass p s m).monitor).monitor.mNodeMonitoringData
      = (gatherPass p s m).monitor.mNodeMonitoringData := by
  rw [gatherPass_events, gatherPass_events, List.map_cons, List.map_cons] at hsame
  have hnode := (List.cons.inj hsame).1
  have hinst := (List.cons.inj hsame).2
  apply NodeMonitoringData.eq_of_fields
  · rfl
  · exact hnode
  · rfl
  · have e2 := gatherPass_instances p s2 (gatherPass p s m).monitor
    have e1 := gatherPass_instances p s m
    rw [gatherInstances_zip] at e2 e1
    simp only [instances] at e1 e2 hinst
    rw [e2, hinst, e1]
    exact zipWith_withReading_idem _ _

/-! ## The snapshot handed to the sender -/

/-- C9: on a monitor that is not shutting down and on which both due flags are
set, one iteration of the gatherer followed by one iteration of the sender
performs one gather pass and then calls the sender exactly once, with a
snapshot whose node id is the monitor's configured node id, whose node-level
MonitoringData is the provider's node reading, and whose instance entries are
the registered entries, one per entry and in list order, each with its id and
identity and with the provider's reading for it as MonitoringData; and a
further gather pass whose readings are identical leaves this snapshot as it
is.  This holds whatever errors the queries return, in particular for a
provider whose queries all succeed. -/
theorem gather_then_send_hands_latest_readings {σ τ : Type}
    (p : ResourceUsageProviderItf σ) (sender : SenderItf τ) (s s2 : σ) (t : τ)
    (m : ResourceMonitor)
    (hfinish : m.mFinishMonitoring = false)
    (hgather : m.mNotifyMonitoring = true)
    (hsend : m.mNotifySendMonitoring = true) :
    gatherIteration p (Error.ofEnum ErrorEnum.eNone) s m
      = LoopStep.worked (gatherPass p s (clearGatherDue m)) ∧
    sendIteration sender (Error.ofEnum ErrorEnum.eNone) t (gatherPass p s (clearGatherDue m)).monitor
      = LoopStep.worked
          { sender := (sender.SendMonitoringData t
              (gatherPass p s (clearGatherDue m)).monitor.mNodeMonitoringData).1,
            monitor :=
              { (gatherPass p s (clearGatherDue m)).monitor with mNotifySendMonitoring := false },
            sent := [((gatherPass p s (clearGatherDue m)).monitor.mNodeMonitoringData,
              (sender.SendMonitoringData t
                (gatherPass p s (clearGatherDue m)).monitor.mNodeMonitoringData).2)] } ∧
    (gatherPass p s (clearGatherDue m)).monitor.mNodeMonitoringData.mNodeID
      = m.mNodeMonitoringData.mNodeID ∧
    (gatherPass p s (clearGatherDue m)).monitor.mNodeMonitoringData.mMonitoringData
      = (nodeReading p s m).2.1 ∧
    (gatherPass p s (clearGatherDue m)).monitor.mNodeMonitoringData.mServiceInstances.mItems.length
      = m.instances.length ∧
    (∀ (i : Nat) (inst : InstanceMonitoringData), m.instances[i]? = some inst →
      (gatherPass p s (clearGatherDue m)).monitor.mNodeMonitoringData.mServiceInstances.mItems[i]?
        = some { mInstanceID := inst.mInstanceID, mInstanceIdent := inst.mInstanceIdent,
                 mMonitoringData :=
                   (instanceReading p (nodeReading p s m).1 m.instances i inst).2.1 }) ∧
    ((gatherPass p s2 (gatherPass p s (clearGatherDue m)).monitor).events.map (fun e => e.reading)
        = (gatherPass p s (clearGatherDue m)).events.map (fun e => e.reading) →
      (gatherPass p s2 (gatherPass p s (clearGatherDue m)).monitor).monitor.mNodeMonitoringData
        = (gatherPass p s (clearGatherDue m)).monitor.mNodeMonitoringData) := by
  refine ⟨?_, ?_, rfl, rfl, ?_, ?_, ?_⟩
  · simp [gatherIteration, Error.ofEnum, hfinish, hgather, clearGatherDue]
  · have hf : (gatherPass p s (clearGatherDue m)).monitor.mFinishMonitoring = false := hfinish
    have hs : (gatherPass p s (clearGatherDue m)).monitor.mNotifySendMonitoring = true := hsend
    simp [sendIteration, Error.ofEnum, hf, hs]
  · exact (gatherInstances p (nodeReading p s m).1 m.instances).2.1.property
  · intro i inst hi
    exact gatherInstances_getElem? p m.instances _ i inst hi
  · exact gatherPass_repeat p s s2 (clearGatherDue m)

/-- Witness of C9: the scenario of the tests.  After Init with node1 and one
partition, with instance1 registered and both timers fired, the sender is
handed exactly the expected snapshot (CPU 1, RAM 1000, partitionName with used
size 100, one entry instance1 with identity serviceID, subjectID, 1); without
a registration the snapshot has no instance entry; and a second pass of the
mock provider leaves the snapshot as it is. -/
theorem gather_then_send_hands_latest_readings_witness :
    sendIteration Test.MockSender (Error.ofEnum ErrorEnum.eNone) []
        (gatherPass Test.MockResourceUsageProvider Test.nodeMonitorParams
          (clearGatherDue (Test.fired Test.registeredMonitor))).monitor
      = LoopStep.worked
          { sender := [Test.expectedSnapshot],
            monitor :=
              { (gatherPass Test.MockResourceUsageProvider Test.nodeMonitorParams
                  (clearGatherDue (Test.fired Test.registeredMonitor))).monitor with
                mNotifySendMonitoring := false },
            sent := [(Test.expectedSnapshot, Error.ofEnum ErrorEnum.eNone)] } ∧
    (gatherPass Test.MockResourceUsageProvider Test.nodeMonitorParams
        (clearGatherDue (Test.fired Test.initMonitor))).monitor.mNodeMonitoringData.mServiceInstances.mItems.length
      = 0 ∧
    (gatherPass Test.MockResourceUsageProvider Test.nodeMonitorParams
        (gatherPass Test.MockResourceUsageProvider Test.nodeMonitorParams
          (clearGatherDue (Test.fired Test.registeredMonitor))).monitor).monitor.mNodeMonitoringData
      = Test.expectedSnapshot :=
  have h := gather_then_send_hands_latest_readings Test.MockResourceUsageProvider
    Test.MockSender Test.nodeMonitorParams Test.nodeMonitorParams []
    (Test.fired Test.registeredMonitor) rfl rfl rfl
  have h0 := gather_then_send_hands_latest_readings Test.MockResourceUsageProvider
    Test.MockSender Test.nodeMonitorParams Test.nodeMonitorParams []
    (Test.fired Test.initMonitor) rfl rfl rfl
  have hexp : (gatherPass Test.MockResourceUsageProvider Test.nodeMonitorParams
      (clearGatherDue (Test.fired Test.registeredMonitor))).monitor.mNodeMonitoringData
        = Test.expectedSnapshot := by decide
  ⟨by rw [h.2.1]; simp only [Test.MockSender, hexp, List.nil_append],
   h0.2.2.2.2.1,
   (h.2.2.2.2.2.2 (by decide)).trans hexp⟩

/-! ## Init -/

/-- C10: when the provider's GetResourceConfig returns an error e, Init returns
exactly e and leaves the monitor's fields as they were (the two collaborator
pointers, which Init binds first, are not part of the state): the snapshot
(node id, node-level disk partition list, instance list) is unchanged, the
gather timer is not touched (so not armed) and neither thread is started. -/
theorem Init_config_error {σ : Type} (m : ResourceMonitor) (p : ResourceUsageProviderItf σ)
    (s : σ) (timerErr gatherRunErr sendRunErr e : Error)
    (hret : (p.GetResourceConfig s ⟨default, StaticArray.empty⟩).2 = e)
    (herr : e.IsNone = false) :
    (m.Init p s timerErr gatherRunErr sendRunErr).2 = e ∧
    (m.Init p s timerErr gatherRunErr sendRunErr).1 = m ∧
    (m.Init p s timerErr gatherRunErr sendRunErr).1.mNodeMonitoringData = m.mNodeMonitoringData ∧
    (m.Init p s timerErr gatherRunErr sendRunErr).1.mTimerGatherers = m.mTimerGatherers ∧
    (m.Init p s timerErr gatherRunErr sendRunErr).1.mThreadMonitoring = m.mThreadMonitoring ∧
    (m.Init p s timerErr gatherRunErr sendRunErr).1.mThreadSendMonitoring
      = m.mThreadSendMonitoring := by
  have h : m.Init p s timerErr gatherRunErr sendRunErr = (m, e) := by
    simp only [Init, hret, herr]
    rfl
  rw [h]
  exact ⟨rfl, rfl, rfl, rfl, rfl, rfl⟩

/-- Witness of C10: a provider whose config query fails with eFailed raised at
provider.cpp:12, on a fresh monitor, even when the timer and thread subsystems
would succeed: Init returns that very error, the timer stays disarmed and both
threads stay idle. -/
theorem Init_config_error_witness :
    (fresh.Init Test.failingProvider () (Error.ofEnum ErrorEnum.eNone)
      (Error.ofEnum ErrorEnum.eNone) (Error.ofEnum ErrorEnum.eNone)).2
        = ⟨ErrorEnum.eFailed, some "provider.cpp", 12⟩ ∧
    (fresh.Init Test.failingProvider () (Error.ofEnum ErrorEnum.eNone)
      (Error.ofEnum ErrorEnum.eNone) (Error.ofEnum ErrorEnum.eNone)).1 = fresh ∧
    fresh.mTimerGatherers.mArmed = none ∧
    fresh.mThreadMonitoring.mRunning = none ∧
    fresh.mThreadSendMonitoring.mRunning = none :=
  have h := Init_config_error fresh Test.failingProvider () (Error.ofEnum ErrorEnum.eNone)
    (Error.ofEnum ErrorEnum.eNone) (Error.ofEnum ErrorEnum.eNone)
    ⟨ErrorEnum.eFailed, some "provider.cpp", 12⟩ rfl rfl
  ⟨h.1, h.2.1, rfl, rfl, rfl⟩

theorem Init_ok_unfold {σ : Type} (m : ResourceMonitor) (p : ResourceUsageProviderItf σ) (s : σ)
    (timerErr gatherRunErr sendRunErr : Error)
    (hok : (p.GetResourceConfig s ⟨default, StaticArray.empty⟩).2.IsNone = true)
    (hg : gatherRunErr.IsNone = true) (hs : sendRunErr.IsNone = true) :
    m.Init p s timerErr gatherRunErr sendRunErr =
      ({ m with
          mNodeMonitoringData :=
            { m.mNodeMonitoringData with
              mNodeID := (p.GetResourceConfig s ⟨default, StaticArray.empty⟩).1.mNodeID,
              mMonitoringData :=
                { m.mNodeMonitoringData.mMonitoringData with
                  mDisk := copyPartitions m.mNodeMonitoringData.mMonitoringData.mDisk
                    (p.GetResourceConfig s ⟨default, StaticArray.empty⟩).1.mPartitions.mItems } },
          mTimerGatherers :=
            (m.mTimerGatherers.Create cTimeoutGather .notifyMonitoring timerErr).1,
          mThreadMonitoring := ⟨some .gatherer⟩,
          mThreadSendMonitoring := ⟨some .sender⟩ }, sendRunErr) := by
  simp [Init, hok, hg, hs, Thread.Run]

/-- C11: for a freshly constructed monitor and a provider whose
GetResourceConfig succeeds with params, when both threads start without error,
Init returns success; afterwards the snapshot's node id is the node id of
params, its node-level disk partition list is the partition list of params
(same entries, same order), and its instance list is empty; both loops run, and
the gather timer is armed when the timer subsystem accepts it.  Hence the
first gather pass asks the provider exactly one query, the node query with that
node id, on MonitoringData that carries that partition list. -/
theorem Init_success {σ : Type} (p : ResourceUsageProviderItf σ) (s s1 : σ)
    (timerErr gatherRunErr sendRunErr : Error) (params : NodeMonitorParams)
    (hcfg : (p.GetResourceConfig s ⟨default, StaticArray.empty⟩).1 = params)
    (hok : (p.GetResourceConfig s ⟨default, StaticArray.empty⟩).2.IsNone = true)
    (hg : gatherRunErr.IsNone = true) (hs : sendRunErr.IsNone = true) :
    (fresh.Init p s timerErr gatherRunErr sendRunErr).2.IsNone = true ∧
    (fresh.Init p s timerErr gatherRunErr sendRunErr).1.mNodeMonitoringData.mNodeID
      = params.mNodeID ∧
    (fresh.Init p s timerErr gatherRunErr sendRunErr).1.mNodeMonitoringData.mMonitoringData.mDisk
      = params.mPartitions ∧
    (fresh.Init p s timerErr gatherRunErr sendRunErr).1.instances = [] ∧
    (fresh.Init p s timerErr gatherRunErr sendRunErr).1.mThreadMonitoring.mRunning
      = some LoopBody.gatherer ∧
    (fresh.Init p s timerErr gatherRunErr sendRunErr).1.mThreadSendMonitoring.mRunning
      = some LoopBody.sender ∧
    (timerErr.IsNone = true →
      (fresh.Init p s timerErr gatherRunErr sendRunErr).1.mTimerGatherers.mArmed
        = some (cTimeoutGather, TimerCallback.notifyMonitoring)) ∧
    nodeReading p s1 (fresh.Init p s timerErr gatherRunErr sendRunErr).1
      = p.GetNodeMonitoringData s1 params.mNodeID
          { mRAM := 0, mCPU := 0, mDisk := params.mPartitions } ∧
    (gatherPass p s1 (fresh.Init p s timerErr gatherRunErr sendRunErr).1).events.map
        (fun e => e.query) = [ProviderQuery.node params.mNodeID] := by
  have hdisk : copyPartitions fresh.mNodeMonitoringData.mMonitoringData.mDisk
      params.mPartitions.mItems = params.mPartitions := copyPartitions_empty _
  rw [Init_ok_unfold fresh p s timerErr gatherRunErr sendRunErr hok hg hs, hcfg]
  refine ⟨hs, rfl, hdisk, rfl, rfl, rfl, ?_, ?_, ?_⟩
  · intro ht
    simp [Timer.Create, ht]
  · simp only [nodeReading, hdisk]
    rfl
  · rfl

/-- Witness of C11: Init of the tests, with the mock provider configured with
node1 and the partition partitionName at partitionPath. -/
theorem Init_success_witness :
    (fresh.Init Test.MockResourceUsageProvider Test.nodeMonitorParams
      (Error.ofEnum ErrorEnum.eNone) (Error.ofEnum ErrorEnum.eNone)
      (Error.ofEnum ErrorEnum.eNone)).2.IsNone = true ∧
    (fresh.Init Test.MockResourceUsageProvider Test.nodeMonitorParams
      (Error.ofEnum ErrorEnum.eNone) (Error.ofEnum ErrorEnum.eNone)
      (Error.ofEnum ErrorEnum.eNone)).1.mNodeMonitoringData.mNodeID
        = Test.str cNodeIDLen "node1" ∧
    (fresh.Init Test.MockResourceUsageProvider Test.nodeMonitorParams
      (Error.ofEnum ErrorEnum.eNone) (Error.ofEnum ErrorEnum.eNone)
      (Error.ofEnum ErrorEnum.eNone)).1.mNodeMonitoringData.mMonitoringData.mDisk.mItems
        = [Test.partition "partitionName" "partitionPath"] :=
  have h := Init_success Test.MockResourceUsageProvider Test.nodeMonitorParams
    Test.nodeMonitorParams (Error.ofEnum ErrorEnum.eNone) (Error.ofEnum ErrorEnum.eNone)
    (Error.ofEnum ErrorEnum.eNone) Test.nodeMonitorParams rfl rfl rfl rfl
  ⟨h.1, h.2.1, congrArg StaticArray.mItems h.2.2.1⟩

/-! ## Re-registration and deregistration -/

theorem findIdx?_modify_same {α : Type} (q : α → Bool) (g : α → α) (hg : ∀ x, q (g x) = q x) :
    ∀ (l : List α) (i : Nat), (l.modify g i).findIdx? q = l.findIdx? q := by
  have hmap : ∀ (l : List α) (i : Nat), (l.modify g i).map q = l.map q :=
    map_modify_same q g hg
  have hkey : ∀ (l1 l2 : List α), l1.map q = l2.map q → l1.findIdx? q = l2.findIdx? q := by
    intro l1
    induction l1 with
    | nil =>
      intro l2 h
      cases l2 with
      | nil => rfl
      | cons y ys => simp at h
    | cons x xs ih =>
      intro l2 h
      cases l2 with
      | nil => simp at h
      | cons y ys =>
        simp only [List.map_cons, List.cons.injEq] at h
        simp only [List.findIdx?_cons, h.1, List.findIdx?_succ, ih ys h.2]
  intro l i
  exact hkey _ _ (hmap l i)

theorem modify_modify_same {α : Type} (g : α → α) (hg : ∀ x, g (g x) = g x) :
    ∀ (l : List α) (i : Nat), (l.modify g i).modify g i = l.modify g i := by
  intro l
  induction l with
  | nil => intro i; cases i <;> rfl
  | cons x xs ih =>
    intro i
    cases i with
    | zero => simp [List.modify, List.modifyHead, hg]
    | succ j =>
      have h := ih j
      simpa [List.modify] using h

theorem modify_length_append {α : Type} (g : α → α) (x : α) :
    ∀ l : List α, (l ++ [x]).modify g l.length = l ++ [g x] := by
  intro l
  induction l with
  | nil => rfl
  | cons y ys ih => simpa [List.modify] using ih

theorem findIdx?_append_new {α : Type} (q : α → Bool) (x : α) (hx : q x = true) :
    ∀ l : List α, l.findIdx? q = none → (l ++ [x]).findIdx? q = some l.length := by
  intro l hnone
  simp [List.findIdx?_append, hnone, List.findIdx?_cons, hx]

/-- C12: StartInstanceMonitoring is idempotent.  For every monitor, id and
parameters, a second call with the same id and parameters (whatever the
indeterminate CPU and RAM values of either call) leaves the instance list that
the first call produced and returns what the first call returned. -/
theorem StartInstanceMonitoring_idempotent (m : ResourceMonitor) (r c r2 c2 : Nat)
    (instanceID : StaticString cInstanceIDLen) (cfg : InstanceMonitorParams) :
    ((m.StartInstanceMonitoring r c instanceID cfg).1.StartInstanceMonitoring r2 c2
        instanceID cfg).1.instances
      = (m.StartInstanceMonitoring r c instanceID cfg).1.instances ∧
    ((m.StartInstanceMonitoring r c instanceID cfg).1.StartInstanceMonitoring r2 c2
        instanceID cfg).2
      = (m.StartInstanceMonitoring r c instanceID cfg).2 := by
  have hq : ∀ x : InstanceMonitoringData,
      (fun inst : InstanceMonitoringData => inst.mInstanceID == instanceID) (replaceDisk cfg x)
        = (fun inst : InstanceMonitoringData => inst.mInstanceID == instanceID) x :=
    fun _ => rfl
  cases hfind : m.instances.findIdx? (fun inst => inst.mInstanceID == instanceID) with
  | none =>
    have habs : ∀ e ∈ m.instances, e.mInstanceID ≠ instanceID := by
      intro e he
      have := (List.findIdx?_eq_none_iff.mp hfind) e he
      simpa using this
    by_cases hlen : m.instances.length < cMaxNumInstances
    · have h1 := StartInstanceMonitoring_absent_room m r c instanceID cfg habs hlen
      have hfind1 : (m.StartInstanceMonitoring r c instanceID cfg).1.instances.findIdx?
          (fun inst => inst.mInstanceID == instanceID) = some m.instances.length := by
        rw [h1.2]
        exact findIdx?_append_new _ _ (by simp) _ hfind
      have h2 := StartInstanceMonitoring_present
        (m.StartInstanceMonitoring r c instanceID cfg).1 r2 c2 instanceID cfg _ hfind1
      refine ⟨?_, h2.1.trans h1.1.symm⟩
      rw [h2.2, h1.2, modify_length_append]
      rfl
    · have hfull : m.instances.length = cMaxNumInstances := by
        have : m.instances.length ≤ cMaxNumInstances :=
          m.mNodeMonitoringData.mServiceInstances.hSize
        omega
      rw [StartInstanceMonitoring_absent_full m r c instanceID cfg habs hfull]
      simp only
      rw [StartInstanceMonitoring_absent_full m r2 c2 instanceID cfg habs hfull]
      exact ⟨rfl, rfl⟩
  | some i =>
    have h1 := StartInstanceMonitoring_present m r c instanceID cfg i hfind
    have hfind1 : (m.StartInstanceMonitoring r c instanceID cfg).1.instances.findIdx?
        (fun inst => inst.mInstanceID == instanceID) = some i := by
      rw [h1.2, findIdx?_modify_same _ _ hq]
      exact hfind
    have h2 := StartInstanceMonitoring_present
      (m.StartInstanceMonitoring r c instanceID cfg).1 r2 c2 instanceID cfg i hfind1
    refine ⟨?_, h2.1.trans h1.1.symm⟩
    rw [h2.2, h1.2]
    exact modify_modify_same (replaceDisk cfg) (fun _ => rfl) _ _

/-- C16: register-then-deregister is a round trip.  When the list has fewer
than cMaxNumInstances (16) entries and none with id instanceID (pairwise
distinct ids are not even needed), StartInstanceMonitoring followed by
StopInstanceMonitoring of the same id returns success from both calls and
leaves the instance list equal to the original list. -/
theorem Start_then_Stop_round_trip (m : ResourceMonitor) (r c : Nat)
    (instanceID : StaticString cInstanceIDLen) (cfg : InstanceMonitorParams)
    (hlen : m.instances.length < 16)
    (habs : ∀ e ∈ m.instances, e.mInstanceID ≠ instanceID) :
    (m.StartInstanceMonitoring r c instanceID cfg).2 = Error.ofEnum ErrorEnum.eNone ∧
    ((m.StartInstanceMonitoring r c instanceID cfg).1.StopInstanceMonitoring instanceID).2
      = Error.ofEnum ErrorEnum.eNone ∧
    ((m.StartInstanceMonitoring r c instanceID cfg).1.StopInstanceMonitoring instanceID).1.instances
      = m.instances := by
  have h1 := StartInstanceMonitoring_absent_room m r c instanceID cfg habs hlen
  have hall : ∀ a ∈ m.instances, (!(a.mInstanceID == instanceID)) = true := by
    intro a ha
    simpa using habs a ha
  have hfilter : (m.StartInstanceMonitoring r c instanceID cfg).1.instances.filter
      (fun inst => !(inst.mInstanceID == instanceID)) = m.instances := by
    rw [h1.2, List.filter_append, List.filter_eq_self.mpr hall]
    simp
  refine ⟨h1.1, ?_, ?_⟩
  · rw [StopInstanceMonitoring_error, hfilter, h1.2]
    simp
  · rw [StopInstanceMonitoring_instances, hfilter]

/-- Witness of C16: instance1 registered on the monitor of the tests after
Init and then deregistered. -/
theorem Start_then_Stop_round_trip_witness :
    (Test.initMonitor.StartInstanceMonitoring 0 0 Test.instance1
        Test.instanceMonitorParams).2 = Error.ofEnum ErrorEnum.eNone ∧
    ((Test.initMonitor.StartInstanceMonitoring 0 0 Test.instance1
        Test.instanceMonitorParams).1.StopInstanceMonitoring Test.instance1).2
      = Error.ofEnum ErrorEnum.eNone ∧
    ((Test.initMonitor.StartInstanceMonitoring 0 0 Test.instance1
        Test.instanceMonitorParams).1.StopInstanceMonitoring Test.instance1).1.instances
      = Test.initMonitor.instances :=
  Start_then_Stop_round_trip Test.initMonitor 0 0 Test.instance1 Test.instanceMonitorParams
    (by decide) (by intro e he; cases he)

/-! ## GetNodeInfo -/

/-- C15 (the code at the failing input): the gather timer's callback, run by
the timer's context on the monitor of the tests after Init while nobody holds
the mutex, sets mNotifyMonitoring without holding the mutex; the send timer's
callback does the same to mNotifySendMonitoring even while the gatherer thread
holds the mutex in the middle of a pass.  Neither body takes the mutex.  The
first block of the destructor, the sibling flag write, does take it. -/
theorem timer_callback_writes_flag_without_mutex :
    runBody Context.gatherTimer ⟨Test.initMonitor, none, []⟩
        (TimerCallback.body TimerCallback.notifyMonitoring)
      = some ⟨{ Test.initMonitor with mNotifyMonitoring := true }, none,
          [⟨Context.gatherTimer, Flag.notifyMonitoring, false⟩]⟩ ∧
    runBody Context.sendTimer ⟨Test.initMonitor, some Context.gathererThread, []⟩
        (TimerCallback.body TimerCallback.notifySendMonitoring)
      = some ⟨{ Test.initMonitor with mNotifySendMonitoring := true },
          some Context.gathererThread,
          [⟨Context.sendTimer, Flag.notifySendMonitoring, false⟩]⟩ ∧
    SyncOp.lock ∉ TimerCallback.body TimerCallback.notifyMonitoring ∧
    SyncOp.lock ∉ TimerCallback.body TimerCallback.notifySendMonitoring ∧
    runBody Context.caller ⟨Test.initMonitor, none, []⟩ destructorSection
      = some ⟨{ Test.initMonitor with mFinishMonitoring := true }, none,
          [⟨Context.caller, Flag.finishMonitoring, true⟩]⟩ := by
  decide

/-! ## Helper lemmas on the run-time system -/

theorem StartInstanceMonitoring_frame (m : ResourceMonitor) (r c : Nat)
    (id : StaticString cInstanceIDLen) (cfg : InstanceMonitorParams) :
    ∃ arr, (m.StartInstanceMonitoring r c id cfg).1
      = { m with mNodeMonitoringData := { m.mNodeMonitoringData with mServiceInstances := arr } } := by
  simp only [StartInstanceMonitoring]
  split
  · exact ⟨_, rfl⟩
  · split
    · exact ⟨_, (withInstances_self m).symm⟩
    · exact ⟨_, rfl⟩

theorem RegistryCall_apply_frame (m : ResourceMonitor) (call : RegistryCall) :
    ∃ arr, (call.apply m).1
      = { m with mNodeMonitoringData := { m.mNodeMonitoringData with mServiceInstances := arr } } := by
  cases call with
  | start r c id cfg => exact StartInstanceMonitoring_frame m r c id cfg
  | stop id => exact ⟨_, rfl⟩

theorem gatherIteration_shutdown {σ : Type} (p : ResourceUsageProviderItf σ) (e : Error) (s : σ)
    (m : ResourceMonitor) (hfin : m.mFinishMonitoring = true) :
    gatherIteration p e s m
      = if e.mErr != ErrorEnum.eNone then LoopStep.lockFailed e else LoopStep.terminated := by
  simp [gatherIteration, hfin]

theorem sendIteration_shutdown {τ : Type} (snd : SenderItf τ) (e : Error) (t : τ)
    (m : ResourceMonitor) (hfin : m.mFinishMonitoring = true) :
    sendIteration snd e t m
      = if e.mErr != ErrorEnum.eNone then LoopStep.lockFailed e else LoopStep.terminated := by
  simp [sendIteration, hfin]

theorem TimerCallback.fire_frame (cb : TimerCallback) (m : ResourceMonitor) :
    (cb.fire m).mFinishMonitoring = m.mFinishMonitoring ∧
    (cb.fire m).mNodeMonitoringData = m.mNodeMonitoringData := by
  cases cb <;> exact ⟨rfl, rfl⟩

theorem System.step_frozen {σ τ : Type} (p : ResourceUsageProviderItf σ) (snd : SenderItf τ)
    (sys0 sys : System σ τ) (a : Action) (h : System.Frozen sys0 sys) :
    System.Frozen sys0 (System.step p snd sys a) := by
  obtain ⟨hf, hq, hs, hp, hsn, hd⟩ := h
  cases a with
  | gathererWake e =>
    simp only [System.step]
    cases sys.gathererLoop with
    | terminated => exact ⟨hf, hq, hs, hp, hsn, hd⟩
    | running =>
      simp only [gatherIteration_shutdown p e _ _ hf]
      by_cases he : (e.mErr != ErrorEnum.eNone) = true
      · simp only [he, if_true]
        exact ⟨hf, hq, hs, hp, hsn, hd⟩
      · simp only [he]
        exact ⟨hf, hq, hs, hp, hsn, hd⟩
  | senderWake e =>
    simp only [System.step]
    cases sys.senderLoop with
    | terminated => exact ⟨hf, hq, hs, hp, hsn, hd⟩
    | running =>
      simp only [sendIteration_shutdown snd e _ _ hf]
      by_cases he : (e.mErr != ErrorEnum.eNone) = true
      · simp only [he, if_true]
        exact ⟨hf, hq, hs, hp, hsn, hd⟩
      · simp only [he]
        exact ⟨hf, hq, hs, hp, hsn, hd⟩
  | timer cb =>
    have hfr := TimerCallback.fire_frame cb sys.monitor
    refine ⟨hfr.1.trans hf, hq, hs, hp, hsn, ?_⟩
    simp only [System.step, hfr.2]
    exact hd
  | shutdown => exact ⟨rfl, hq, hs, hp, hsn, hd⟩
  | registry call =>
    obtain ⟨arr, harr⟩ := RegistryCall_apply_frame sys.monitor call
    simp only [System.Frozen, System.step, harr]
    exact ⟨hf, hq, hs, hp, hsn, hd⟩

theorem System.run_frozen {σ τ : Type} (p : ResourceUsageProviderItf σ) (snd : SenderItf τ)
    (sys0 : System σ τ) (acts : List Action) :
    ∀ sys : System σ τ, System.Frozen sys0 sys → System.Frozen sys0 (System.run p snd sys acts) := by
  induction acts with
  | nil => intro sys h; exact h
  | cons a rest ih =>
    intro sys h
    exact ih _ (System.step_frozen p snd sys0 sys a h)

theorem System.step_gatherer_terminated {σ τ : Type} (p : ResourceUsageProviderItf σ)
    (snd : SenderItf τ) (sys : System σ τ) (a : Action)
    (h : sys.gathererLoop = LoopState.terminated) :
    (System.step p snd sys a).gathererLoop = LoopState.terminated := by
  cases a with
  | gathererWake e => simp only [System.step, h]
  | senderWake e =>
    simp only [System.step]
    split
    · exact h
    · split <;> exact h
  | timer cb => exact h
  | shutdown => exact h
  | registry call => exact h

theorem System.step_sender_terminated {σ τ : Type} (p : ResourceUsageProviderItf σ)
    (snd : SenderItf τ) (sys : System σ τ) (a : Action)
    (h : sys.senderLoop = LoopState.terminated) :
    (System.step p snd sys a).senderLoop = LoopState.terminated := by
  cases a with
  | gathererWake e =>
    simp only [System.step]
    split
    · exact h
    · split <;> exact h
  | senderWake e => simp only [System.step, h]
  | timer cb => exact h
  | shutdown => exact h
  | registry call => exact h

theorem System.run_gatherer_terminated {σ τ : Type} (p : ResourceUsageProviderItf σ)
    (snd : SenderItf τ) (acts : List Action) :
    ∀ sys : System σ τ, sys.gathererLoop = LoopState.terminated →
      (System.run p snd sys acts).gathererLoop = LoopState.terminated := by
  induction acts with
  | nil => intro sys h; exact h
  | cons a rest ih =>
    intro sys h
    exact ih _ (System.step_gatherer_terminated p snd sys a h)

theorem System.run_sender_terminated {σ τ : Type} (p : ResourceUsageProviderItf σ)
    (snd : SenderItf τ) (acts : List Action) :
    ∀ sys : System σ τ, sys.senderLoop = LoopState.terminated →
      (System.run p snd sys acts).senderLoop = LoopState.terminated := by
  induction acts with
  | nil => intro sys h; exact h
  | cons a rest ih =>
    intro sys h
    exact ih _ (System.step_sender_terminated p snd sys a h)

theorem System.run_append {σ τ : Type} (p : ResourceUsageProviderItf σ) (snd : SenderItf τ)
    (sys : System σ τ) (acts1 acts2 : List Action) :
    System.run p snd sys (acts1 ++ acts2)
      = System.run p snd (System.run p snd sys acts1) acts2 := by
  simp [System.run, List.foldl_append]

theorem System.step_gathererWake_shutdown {σ τ : Type} (p : ResourceUsageProviderItf σ)
    (snd : SenderItf τ) (sys : System σ τ) (e : Error)
    (hfin : sys.monitor.mFinishMonitoring = true) (he : e.mErr = ErrorEnum.eNone) :
    (System.step p snd sys (Action.gathererWake e)).gathererLoop = LoopState.terminated ∧
    (System.step p snd sys (Action.gathererWake e)).monitor = sys.monitor ∧
    (System.step p snd sys (Action.gathererWake e)).provider = sys.provider ∧
    (System.step p snd sys (Action.gathererWake e)).queries = sys.queries := by
  simp only [System.step]
  cases hg : sys.gathererLoop with
  | terminated => exact ⟨hg, rfl, rfl, rfl⟩
  | running =>
    simp only [gatherIteration_shutdown p e _ _ hfin, he]
    exact ⟨rfl, rfl, rfl, rfl⟩

theorem System.step_senderWake_shutdown {σ τ : Type} (p : ResourceUsageProviderItf σ)
    (snd : SenderItf τ) (sys : System σ τ) (e : Error)
    (hfin : sys.monitor.mFinishMonitoring = true) (he : e.mErr = ErrorEnum.eNone) :
    (System.step p snd sys (Action.senderWake e)).senderLoop = LoopState.terminated ∧
    (System.step p snd sys (Action.senderWake e)).monitor = sys.monitor ∧
    (System.step p snd sys (Action.senderWake e)).sender = sys.sender ∧
    (System.step p snd sys (Action.senderWake e)).sent = sys.sent := by
  simp only [System.step]
  cases hg : sys.senderLoop with
  | terminated => exact ⟨hg, rfl, rfl, rfl⟩
  | running =>
    simp only [sendIteration_shutdown snd e _ _ hfin, he]
    exact ⟨rfl, rfl, rfl, rfl⟩

/-! ## Shutdown -/

/-- C13: shutdown takes priority in both loops.  When the shutdown flag is set
and a loop passes its wait (its lock succeeded), the iteration terminates the
loop, whatever its own due flag: the provider (respectively the sender) is not
called, the monitor, with its snapshot and its due flags, is left as it is.
From then on, whatever happens (loop iterations, timer callbacks, registry
calls, a repeated shutdown), the flag stays set, no provider query and no send
is ever added, and each loop is terminated from its next wake on. -/
theorem shutdown_takes_priority {σ τ : Type} (p : ResourceUsageProviderItf σ)
    (snd : SenderItf τ) (sys : System σ τ) (e : Error) (acts acts2 : List Action)
    (hfin : sys.monitor.mFinishMonitoring = true) (he : e.mErr = ErrorEnum.eNone) :
    gatherIteration p e sys.provider sys.monitor = LoopStep.terminated ∧
    sendIteration snd e sys.sender sys.monitor = LoopStep.terminated ∧
    ((System.step p snd sys (Action.gathererWake e)).gathererLoop = LoopState.terminated ∧
      (System.step p snd sys (Action.gathererWake e)).monitor = sys.monitor ∧
      (System.step p snd sys (Action.gathererWake e)).provider = sys.provider ∧
      (System.step p snd sys (Action.gathererWake e)).queries = sys.queries) ∧
    ((System.step p snd sys (Action.senderWake e)).senderLoop = LoopState.terminated ∧
      (System.step p snd sys (Action.senderWake e)).monitor = sys.monitor ∧
      (System.step p snd sys (Action.senderWake e)).sender = sys.sender ∧
      (System.step p snd sys (Action.senderWake e)).sent = sys.sent) ∧
    System.Frozen sys (System.run p snd sys acts) ∧
    (System.run p snd sys (acts ++ Action.gathererWake e :: acts2)).gathererLoop
      = LoopState.terminated ∧
    (System.run p snd sys (acts ++ Action.senderWake e :: acts2)).senderLoop
      = LoopState.terminated := by
  have hfrozen : System.Frozen sys (System.run p snd sys acts) :=
    System.run_frozen p snd sys acts sys ⟨hfin, rfl, rfl, rfl, rfl, rfl⟩
  refine ⟨?_, ?_, System.step_gathererWake_shutdown p snd sys e hfin he,
    System.step_senderWake_shutdown p snd sys e hfin he, hfrozen, ?_, ?_⟩
  · simp [gatherIteration_shutdown p e _ _ hfin, he]
  · simp [sendIteration_shutdown snd e _ _ hfin, he]
  · rw [System.run_append]
    exact System.run_gatherer_terminated p snd acts2 _
      (System.step_gathererWake_shutdown p snd _ e hfrozen.1 he).1
  · rw [System.run_append]
    exact System.run_sender_terminated p snd acts2 _
      (System.step_senderWake_shutdown p snd _ e hfrozen.1 he).1

/-- Witness of C13: the system of the tests with both due flags set, after the
destructor has set the shutdown flag; timers fire and a registration arrives
before the loops wake. -/
theorem shutdown_takes_priority_witness :
    (System.step Test.MockResourceUsageProvider Test.MockSender Test.system
        Action.shutdown).monitor.mFinishMonitoring = true ∧
    (System.step Test.MockResourceUsageProvider Test.MockSender Test.system
        Action.shutdown).monitor.mNotifyMonitoring = true ∧
    gatherIteration Test.MockResourceUsageProvider (Error.ofEnum ErrorEnum.eNone)
        Test.nodeMonitorParams
        (System.step Test.MockResourceUsageProvider Test.MockSender Test.system
          Action.shutdown).monitor = LoopStep.terminated ∧
    (System.run Test.MockResourceUsageProvider Test.MockSender
        (System.step Test.MockResourceUsageProvider Test.MockSender Test.system Action.shutdown)
        ([Action.timer TimerCallback.notifyMonitoring,
          Action.registry (RegistryCall.stop Test.instance1)]
          ++ Action.gathererWake (Error.ofEnum ErrorEnum.eNone)
            :: [Action.timer TimerCallback.notifyMonitoring,
                Action.gathererWake (Error.ofEnum ErrorEnum.eNone)])).gathererLoop
      = LoopState.terminated :=
  have h := shutdown_takes_priority Test.MockResourceUsageProvider Test.MockSender
    (System.step Test.MockResourceUsageProvider Test.MockSender Test.system Action.shutdown)
    (Error.ofEnum ErrorEnum.eNone)
    [Action.timer TimerCallback.notifyMonitoring,
      Action.registry (RegistryCall.stop Test.instance1)]
    [Action.timer TimerCallback.notifyMonitoring,
      Action.gathererWake (Error.ofEnum ErrorEnum.eNone)] rfl rfl
  ⟨rfl, rfl, h.1, h.2.2.2.2.2.1⟩

/-! ## What a gather pass leaves alone -/

theorem gatherInstances_identity {σ : Type} (p : ResourceUsageProviderItf σ) :
    ∀ (l : List InstanceMonitoringData) (s : σ),
      (gatherInstances p s l).2.1.val.map identityOf = l.map identityOf := by
  intro l
  induction l with
  | nil => intro s; rfl
  | cons x rest ih =>
    intro s
    simp only [gatherInstances, List.map_cons]
    rw [ih]
    rfl

theorem System.step_timestamp {σ τ : Type} (p : ResourceUsageProviderItf σ) (snd : SenderItf τ)
    (sys : System σ τ) (a : Action) :
    (System.step p snd sys a).monitor.mNodeMonitoringData.mTimestamp
      = sys.monitor.mNodeMonitoringData.mTimestamp ∧
    ∀ x ∈ (System.step p snd sys a).sent,
      x ∈ sys.sent ∨ x.1.mTimestamp = sys.monitor.mNodeMonitoringData.mTimestamp := by
  cases a with
  | gathererWake e =>
    simp only [System.step]
    split
    · exact ⟨rfl, fun x hx => Or.inl hx⟩
    · split
      · exact ⟨rfl, fun x hx => Or.inl hx⟩
      · exact ⟨rfl, fun x hx => Or.inl hx⟩
      · exact ⟨rfl, fun x hx => Or.inl hx⟩
      · rename_i g hg
        refine ⟨?_, fun x hx => Or.inl hx⟩
        simp only [gatherIteration] at hg
        split at hg
        · cases hg
        · split at hg
          · cases hg
          · split at hg
            · cases hg
            · cases hg
              rfl
  | senderWake e =>
    simp only [System.step]
    split
    · exact ⟨rfl, fun x hx => Or.inl hx⟩
    · split
      · exact ⟨rfl, fun x hx => Or.inl hx⟩
      · exact ⟨rfl, fun x hx => Or.inl hx⟩
      · exact ⟨rfl, fun x hx => Or.inl hx⟩
      · rename_i r hr
        simp only [sendIteration] at hr
        split at hr
        · cases hr
        · split at hr
          · cases hr
          · split at hr
            · cases hr
            · cases hr
              refine ⟨rfl, ?_⟩
              intro x hx
              rcases List.mem_append.mp hx with h1 | h1
              · exact Or.inl h1
              · right
                rw [List.mem_singleton.mp h1]
  | timer cb =>
    refine ⟨?_, fun x hx => Or.inl hx⟩
    simp only [System.step, (TimerCallback.fire_frame cb sys.monitor).2]
  | shutdown => exact ⟨rfl, fun x hx => Or.inl hx⟩
  | registry call =>
    obtain ⟨arr, harr⟩ := RegistryCall_apply_frame sys.monitor call
    refine ⟨?_, fun x hx => Or.inl hx⟩
    simp only [System.step, harr]

theorem System.run_timestamp {σ τ : Type} (p : ResourceUsageProviderItf σ) (snd : SenderItf τ)
    (acts : List Action) :
    ∀ sys : System σ τ,
      (System.run p snd sys acts).monitor.mNodeMonitoringData.mTimestamp
        = sys.monitor.mNodeMonitoringData.mTimestamp ∧
      ∀ x ∈ (System.run p snd sys acts).sent,
        x ∈ sys.sent ∨ x.1.mTimestamp = sys.monitor.mNodeMonitoringData.mTimestamp := by
  induction acts with
  | nil => intro sys; exact ⟨rfl, fun x hx => Or.inl hx⟩
  | cons a rest ih =>
    intro sys
    have hstep := System.step_timestamp p snd sys a
    have hrest := ih (System.step p snd sys a)
    refine ⟨hrest.1.trans hstep.1, ?_⟩
    intro x hx
    rcases hrest.2 x hx with h1 | h1
    · exact hstep.2 x h1
    · exact Or.inr (h1.trans hstep.1)

/-- C17: a gather pass changes nothing but MonitoringData fields.  Whatever the
provider returns, after the pass the snapshot's node id and timestamp, the
number and order of the instance entries and every entry's instance id and
identity are as before, and so are the flags, timers and threads.  In
particular, over any run of the system (loop iterations, timer callbacks,
registry calls, shutdown) the timestamp keeps its initial value, and every
snapshot handed to the sender during the run carries that initial value. -/
theorem gatherPass_changes_only_MonitoringData {σ τ : Type} (p : ResourceUsageProviderItf σ)
    (snd : SenderItf τ) (s : σ) (m : ResourceMonitor) (sys : System σ τ)
    (acts : List Action) :
    (gatherPass p s m).monitor.mNodeMonitoringData.mNodeID = m.mNodeMonitoringData.mNodeID ∧
    (gatherPass p s m).monitor.mNodeMonitoringData.mTimestamp
      = m.mNodeMonitoringData.mTimestamp ∧
    (gatherPass p s m).monitor.instances.length = m.instances.length ∧
    (gatherPass p s m).monitor.instances.map identityOf = m.instances.map identityOf ∧
    (gatherPass p s m).monitor.instanceIDs = m.instanceIDs ∧
    ((gatherPass p s m).monitor.mFinishMonitoring = m.mFinishMonitoring ∧
      (gatherPass p s m).monitor.mNotifyMonitoring = m.mNotifyMonitoring ∧
      (gatherPass p s m).monitor.mNotifySendMonitoring = m.mNotifySendMonitoring ∧
      (gatherPass p s m).monitor.mTimerGatherers = m.mTimerGatherers ∧
      (gatherPass p s m).monitor.mTimerSenders = m.mTimerSenders ∧
      (gatherPass p s m).monitor.mThreadMonitoring = m.mThreadMonitoring ∧
      (gatherPass p s m).monitor.mThreadSendMonitoring = m.mThreadSendMonitoring) ∧
    (System.run p snd sys acts).monitor.mNodeMonitoringData.mTimestamp
      = sys.monitor.mNodeMonitoringData.mTimestamp ∧
    (∀ x ∈ (System.run p snd sys acts).sent,
      x ∈ sys.sent ∨ x.1.mTimestamp = sys.monitor.mNodeMonitoringData.mTimestamp) := by
  have hid := gatherInstances_identity p m.instances (nodeReading p s m).1
  have hrun := System.run_timestamp p snd acts sys
  refine ⟨rfl, rfl, ?_, ?_, ?_, ⟨rfl, rfl, rfl, rfl, rfl, rfl, rfl⟩, hrun.1, hrun.2⟩
  · rw [gatherPass_instances]
    exact (gatherInstances p (nodeReading p s m).1 m.instances).2.1.property
  · rw [gatherPass_instances]
    exact hid
  · have h2 := congrArg (List.map Prod.fst) (by rw [gatherPass_instances]; exact hid :
      (gatherPass p s m).monitor.instances.map identityOf = m.instances.map identityOf)
    simpa [instanceIDs, List.map_map, Function.comp_def, identityOf] using h2

end monitoring

end aos
